import Mathlib

/-! Tracee event postdissectors.

A shallow embedding of `plugins/epan/tracee-event/postdissectors.c`.

Conventions of the embedding:

* a C string (`const gchar *`) is represented by a `String` holding the
  characters that precede the terminating NUL; a `NULL` pointer is `none`;
* `int` values are `Int`; a dissector returns its `int` together with the
  packet state it leaves;
* the file-scope registry `event_postdissectors` and the wanted-field
  catalog are passed explicitly;
* `tvb`, `tree` and `data` are unused by every function of the file (`_U_`)
  and are dropped.
-/

namespace Tracee

/-! ## C library string functions -/

/-- The loop of `strcmp` over the characters before the terminators: the
result is negative, zero or positive (only the sign is specified by C). -/
def strcmp_loop : List Char → List Char → Int
  | [], [] => 0
  | [], _ :: _ => -1
  | _ :: _, [] => 1
  | c1 :: r1, c2 :: r2 =>
    if c1 = c2 then strcmp_loop r1 r2 else if c1.toNat < c2.toNat then -1 else 1

/-- `strcmp(s1, s2)`. -/
def strcmp (s1 s2 : String) : Int := strcmp_loop s1.data s2.data

/-- `strlen(s)`. -/
def strlen (s : String) : Nat := s.data.length

/-- The loop of `strncmp`: at most `n` characters are compared, and the
comparison stops at the first difference or when both strings end. -/
def strncmp_loop : List Char → List Char → Nat → Int
  | _, _, 0 => 0
  | [], [], _ + 1 => 0
  | [], _ :: _, _ + 1 => -1
  | _ :: _, [], _ + 1 => 1
  | c1 :: r1, c2 :: r2, n + 1 =>
    if c1 = c2 then strncmp_loop r1 r2 n else if c1.toNat < c2.toNat then -1 else 1

/-- `strncmp(s1, s2, n)`. -/
def strncmp (s1 s2 : String) (n : Nat) : Int := strncmp_loop s1.data s2.data n

/-- The loop of `strchr`: the offset of the first occurrence of `c`, or
`none` (a `NULL` result) when the string ends first. -/
def strchr_loop (c : Char) : List Char → Nat → Option Nat
  | [], _ => none
  | x :: rest, i => if x = c then some i else strchr_loop c rest (i + 1)

/-- `strchr(s, c)` for a character `c` other than NUL, as an offset into `s`. -/
def strchr (s : String) (c : Char) : Option Nat := strchr_loop c s.data 0

/-- The effect of `*tmp = '\0'` where `tmp` points at offset `i` of `s`:
the string now ends there. -/
def terminate_at (s : String) (i : Nat) : String := ⟨s.data.take i⟩

/-- `wmem_strdup(pool, s)`: a fresh copy of `s`. -/
def wmem_strdup (s : String) : String := ⟨s.data⟩

/-- `g_str_equal`, the key equality of the registry map (GLib: `strcmp(a, b) == 0`). -/
def g_str_equal (a b : String) : Bool := strcmp a b == 0

/-- Expansion of a printf-style format in which `%s` is the only conversion:
each `%s` is replaced by the next argument. -/
def format_loop : List Char → List String → List Char
  | [], _ => []
  | '%' :: 's' :: rest, a :: args => a.data ++ format_loop rest args
  | c :: rest, args => c :: format_loop rest args

/-- The text produced by `g_vsnprintf`-style formatting of `fmt` with string arguments. -/
def format (fmt : String) (args : List String) : String := ⟨format_loop fmt.data args⟩

/-! ## The output sink: the Info column -/

/-- One write to the summary column. -/
inductive col_write where
  | set (text : String)
  | append (text : String)
  deriving DecidableEq, Repr

/-- The part of `packet_info` the file touches: the text of `COL_INFO`, and
the writes made to it so far (a ghost log, oldest first). -/
structure packet_info where
  col_info : String
  writes : List col_write
  deriving DecidableEq, Repr

/-- Modelled from the spec: the sink operation `set_summary(text)` (overwrite),
which is the column call `col_add_str(cinfo, COL_INFO, str)`; the column
functions are declared in `epan/column-utils.h`, outside this file. -/
def col_add_str (pinfo : packet_info) (str : String) : packet_info :=
  { col_info := str, writes := pinfo.writes ++ [col_write.set str] }

/-- Modelled from the spec: `col_add_fstr`, the formatted form of `col_add_str`. -/
def col_add_fstr (pinfo : packet_info) (fmt : String) (args : List String) : packet_info :=
  col_add_str pinfo (format fmt args)

/-- Modelled from the spec: the sink operation `append_summary(text)`
(concatenate), which is the column call `col_append_str(cinfo, COL_INFO, str)`. -/
def col_append_str (pinfo : packet_info) (str : String) : packet_info :=
  { col_info := pinfo.col_info ++ str, writes := pinfo.writes ++ [col_write.append str] }

/-- Modelled from the spec: `col_append_fstr`, the formatted form of `col_append_str`. -/
def col_append_fstr (pinfo : packet_info) (fmt : String) (args : List String) : packet_info :=
  col_append_str pinfo (format fmt args)

/-! ## The field catalog -/

/-- A field value of the current event: string-valued or integer-valued. -/
inductive field_value where
  | str (s : String)
  | int (i : Int)
  deriving DecidableEq, Repr

/-- The field catalog: the declared wanted field names, and the values
resolved for the event being processed. -/
structure field_catalog where
  wanted : List String
  values : String → Option field_value

/-- Modelled from the spec: `register_wanted_field(name)` (`declare`), whose
body is in another file of the plugin: registers interest in a field name;
declaring a name twice has no additional effect. -/
def register_wanted_field (wanted : List String) (filter_name : String) : List String :=
  if filter_name ∈ wanted then wanted else wanted ++ [filter_name]

/-- Modelled from the spec: `wanted_field_get_str(name)` (`lookup_string`), whose
body is in another file of the plugin: the current event's value for `name`, or
absent (`NULL`) if the field was not declared, was not present in this event,
or is not string-valued. -/
def wanted_field_get_str (fc : field_catalog) (filter_name : String) : Option String :=
  if filter_name ∈ fc.wanted then
    match fc.values filter_name with
    | some (field_value.str s) => some s
    | _ => none
  else none

/-- Modelled from the spec: `wanted_field_get_int(name)` (`lookup_int`), whose
body is in another file of the plugin: the current event's value for `name`, or
absent (`NULL`) if the field was not declared, was not present in this event,
or is not integer-valued. -/
def wanted_field_get_int (fc : field_catalog) (filter_name : String) : Option Int :=
  if filter_name ∈ fc.wanted then
    match fc.values filter_name with
    | some (field_value.int i) => some i
    | _ => none
  else none

/-! ## The formatting rules -/

/-- The type of a dissector: it reads fields of the current event, may write
to the Info column, and returns an `int`. -/
abbrev dissector_t := field_catalog → packet_info → Int × packet_info

/-- `dissect_sched_process_exec`. -/
def dissect_sched_process_exec (fc : field_catalog) (pinfo : packet_info) : Int × packet_info :=
  let pathname := wanted_field_get_str fc "tracee.args.pathname"
  let cmdline := wanted_field_get_str fc "tracee.args.command_line"
  match pathname, cmdline with
  | some pathname, some cmdline =>
    if strncmp pathname cmdline (strlen pathname) = 0 then
      (0, col_add_str pinfo cmdline)
    else
      (0, col_add_fstr pinfo "%s: %s" [pathname, cmdline])
  | _, _ => (0, pinfo)

/-- `dissect_net_packet_http_request`. -/
def dissect_net_packet_http_request (fc : field_catalog) (pinfo : packet_info) :
    Int × packet_info :=
  let method := wanted_field_get_str fc "tracee.proto_http_request.method"
  let protocol := wanted_field_get_str fc "tracee.proto_http_request.protocol"
  let uri_path := wanted_field_get_str fc "tracee.proto_http_request.uri_path"
  match method, protocol, uri_path with
  | some method, some protocol, some uri_path =>
    let pinfo1 := col_add_fstr pinfo "%s %s %s" [method, uri_path, protocol]
    if strcmp method "POST" ≠ 0 then
      match wanted_field_get_str fc "http.content_type" with
      | some content_type => (0, col_append_fstr pinfo1 "  (%s)" [content_type])
      | none => (0, pinfo1)
    else (0, pinfo1)
  | _, _, _ => (0, pinfo)

/-- The block of `dissect_net_packet_http` under the comment "discard
semicolon in content type": `content_type_short` stays `NULL` when
`content_type` is, and is otherwise a copy cut at its first `;`. -/
def content_type_short (content_type : Option String) : Option String :=
  match content_type with
  | none => none
  | some content_type =>
    let copy := wmem_strdup content_type
    match strchr copy ';' with
    | some tmp => some (terminate_at copy tmp)
    | none => some copy

/-- `dissect_net_packet_http`. -/
def dissect_net_packet_http (fc : field_catalog) (pinfo : packet_info) : Int × packet_info :=
  match wanted_field_get_str fc "tracee.proto_http.direction" with
  | none => (0, pinfo)
  | some direction =>
    let request? : Option Bool :=
      if strcmp direction "request" = 0 then some true
      else if strcmp direction "response" = 0 then some false
      else none
    match request? with
    | none => (0, pinfo)
    | some request =>
      let protocol := wanted_field_get_str fc "tracee.proto_http.protocol"
      let content_type := wanted_field_get_str fc "http.content_type"
      let content_type_short := content_type_short content_type
      if request then
        let method := wanted_field_get_str fc "tracee.proto_http.method"
        let uri_path := wanted_field_get_str fc "tracee.proto_http.uri_path"
        match method, protocol, uri_path with
        | some method, some protocol, some uri_path =>
          let pinfo1 := col_add_fstr pinfo "%s %s %s" [method, uri_path, protocol]
          match content_type_short with
          | some cts => (0, col_append_fstr pinfo1 " (%s)" [cts])
          | none => (0, pinfo1)
        | _, _, _ => (0, pinfo)
      else
        let status := wanted_field_get_str fc "tracee.proto_http.status"
        match protocol, status with
        | some protocol, some status =>
          let pinfo1 := col_add_fstr pinfo "%s %s" [protocol, status]
          match content_type_short with
          | some cts => (0, col_append_fstr pinfo1 "  (%s)" [cts])
          | none => (0, pinfo1)
        | _, _ => (0, pinfo)

/-- `dissect_security_socket_bind_connect`. -/
def dissect_security_socket_bind_connect (fc : field_catalog) (pinfo : packet_info)
    (verb : String) : Int × packet_info :=
  match wanted_field_get_str fc "tracee.sockaddr.sa_family" with
  | none => (0, pinfo)
  | some family =>
    let selected : Option (Option String × Option String) :=
      if strcmp family "AF_INET" = 0 then
        some (wanted_field_get_str fc "tracee.sockaddr.sin_addr",
              wanted_field_get_str fc "tracee.sockaddr.sin_port")
      else if strcmp family "AF_INET6" = 0 then
        some (wanted_field_get_str fc "tracee.sockaddr.sin6_addr",
              wanted_field_get_str fc "tracee.sockaddr.sin6_port")
      else none
    match selected with
    | none => (0, pinfo)
    | some (some addr, some port) =>
      (0, col_add_fstr pinfo "%s to %s port %s" [verb, addr, port])
    | some (_, _) => (0, pinfo)

/-- `dissect_security_socket_bind`. -/
def dissect_security_socket_bind (fc : field_catalog) (pinfo : packet_info) : Int × packet_info :=
  dissect_security_socket_bind_connect fc pinfo "Bind"

/-- `dissect_security_socket_connect`. -/
def dissect_security_socket_connect (fc : field_catalog) (pinfo : packet_info) :
    Int × packet_info :=
  dissect_security_socket_bind_connect fc pinfo "Connect"

/-- `dissect_dynamic_code_loading`. -/
def dissect_dynamic_code_loading (fc : field_catalog) (pinfo : packet_info) : Int × packet_info :=
  match wanted_field_get_str fc "tracee.args.alert" with
  | some alert => (0, col_append_str pinfo alert)
  | none => (0, pinfo)

/-- `dissect_fileless_execution`. -/
def dissect_fileless_execution (fc : field_catalog) (pinfo : packet_info) : Int × packet_info :=
  match wanted_field_get_str fc "tracee.args.pathname" with
  | some pathname => (0, col_append_fstr pinfo "Running from %s" [pathname])
  | none => (0, pinfo)

/-- `dissect_stdio_over_socket`. -/
def dissect_stdio_over_socket (fc : field_catalog) (pinfo : packet_info) : Int × packet_info :=
  let fd := wanted_field_get_int fc "tracee.args.File_descriptor"
  let addr := wanted_field_get_str fc "tracee.args.IP_address"
  let port := wanted_field_get_str fc "tracee.args.Port"
  match fd, addr, port with
  | some fd, some addr, some port =>
    let stream? : Option String :=
      if fd = 0 then some "STDIN"
      else if fd = 1 then some "STDOUT"
      else if fd = 2 then some "STDERR"
      else none
    match stream? with
    | none => (0, pinfo)
    | some stream => (0, col_add_fstr pinfo "%s forwarded to %s port %s" [stream, addr, port])
  | _, _, _ => (0, pinfo)

/-! ## The registry and the dispatcher -/

/-- The registry map (`wmem_map_t` keyed by `g_str_hash` / `g_str_equal`), as
the list of its entries in insertion order. -/
abbrev wmem_map := List (String × dissector_t)

/-- `wmem_map_new`: the empty map. -/
def wmem_map_new : wmem_map := []

/-- `wmem_map_insert(map, key, value)`: the entry of an equal key is replaced,
otherwise the entry is added. -/
def wmem_map_insert : wmem_map → String → dissector_t → wmem_map
  | [], key, value => [(key, value)]
  | (k, v) :: rest, key, value =>
    if g_str_equal k key then (k, value) :: rest else (k, v) :: wmem_map_insert rest key value

/-- `wmem_map_lookup(map, key)`: the value stored under an equal key, or `NULL`. -/
def wmem_map_lookup : wmem_map → String → Option dissector_t
  | [], _ => none
  | (k, v) :: rest, key => if g_str_equal k key then some v else wmem_map_lookup rest key

/-- `postdissect_event`, reading the registry `event_postdissectors`. -/
def postdissect_event (event_postdissectors : wmem_map) (fc : field_catalog)
    (pinfo : packet_info) : Int × packet_info :=
  match wanted_field_get_str fc "tracee.eventName" with
  | none => (0, pinfo)
  | some event_name =>
    match wmem_map_lookup event_postdissectors event_name with
    | none => (0, pinfo)
    | some dissector => dissector fc pinfo

/-- `register_tracee_event_postdissector`. -/
def register_tracee_event_postdissector (event_postdissectors : wmem_map) (event_name : String)
    (dissector_func : dissector_t) : wmem_map :=
  wmem_map_insert event_postdissectors event_name dissector_func

/-- `register_wanted_fields`: the body of the function, call by call in source
order, with its callee `register_wanted_field` (not in this file) and the state
that callee updates taken as parameters. -/
def register_wanted_fields_with {σ : Type} (declare : σ → String → σ) (st : σ) : σ :=
  -- needed for general postdissector
  let w := declare st "tracee.eventName"
  -- needed for dissect_sched_process_exec and dissect_fileless_execution
  let w := declare w "tracee.args.pathname"
  let w := declare w "tracee.args.command_line"
  -- needed for dissect_net_packet_http_request
  let w := declare w "tracee.proto_http_request.method"
  let w := declare w "tracee.proto_http_request.protocol"
  let w := declare w "tracee.proto_http_request.uri_path"
  let w := declare w "http.content_type"
  -- needed for dissect_net_packet_http
  let w := declare w "tracee.proto_http.direction"
  let w := declare w "tracee.proto_http.method"
  let w := declare w "tracee.proto_http.protocol"
  let w := declare w "tracee.proto_http.uri_path"
  let w := declare w "tracee.proto_http.status"
  -- needed for dissect_security_socket_bind_connect
  let w := declare w "tracee.sockaddr.sa_family"
  let w := declare w "tracee.sockaddr.sin_addr"
  let w := declare w "tracee.sockaddr.sin_port"
  let w := declare w "tracee.sockaddr.sin6_addr"
  let w := declare w "tracee.sockaddr.sin6_port"
  -- needed for dissect_dynamic_code_loading
  let w := declare w "tracee.args.alert"
  -- needed for dissect_stdio_over_socket
  let w := declare w "tracee.args.File_descriptor"
  let w := declare w "tracee.args.IP_address"
  declare w "tracee.args.Port"

/-- `register_wanted_fields`, threading the set of declared names: the body
above run with `register_wanted_field`. -/
def register_wanted_fields (wanted : List String) : List String :=
  register_wanted_fields_with register_wanted_field wanted

/-- The calls `register_wanted_fields` makes: the argument of each
`register_wanted_field` call, one entry per call in the order made, obtained by
running the body with a callee that only records its argument. A name declared
twice by the function appears twice here. -/
def register_wanted_fields_calls : List String :=
  register_wanted_fields_with (fun calls filter_name => calls ++ [filter_name]) []

/-- The state set up by initialisation: the registry and the declared wanted fields. -/
structure tracee_state where
  event_postdissectors : wmem_map
  wanted : List String

/-- `register_tracee_postdissectors`, started with `wanted` fields already
declared by the rest of the plugin. The registration of `postdissect_event`
itself with the host is outside the model. -/
def register_tracee_postdissectors (wanted : List String) : tracee_state :=
  let m := wmem_map_new
  let m := register_tracee_event_postdissector m "sched_process_exec" dissect_sched_process_exec
  let m := register_tracee_event_postdissector m "net_packet_http_request"
    dissect_net_packet_http_request
  let m := register_tracee_event_postdissector m "net_packet_http" dissect_net_packet_http
  let m := register_tracee_event_postdissector m "security_socket_bind"
    dissect_security_socket_bind
  let m := register_tracee_event_postdissector m "security_socket_connect"
    dissect_security_socket_connect
  let m := register_tracee_event_postdissector m "dynamic_code_loading"
    dissect_dynamic_code_loading
  let m := register_tracee_event_postdissector m "fileless_execution" dissect_fileless_execution
  let m := register_tracee_event_postdissector m "stdio_over_socket" dissect_stdio_over_socket
  { event_postdissectors := m, wanted := register_wanted_fields wanted }

/-- The registry after initialisation. -/
def event_postdissectors : wmem_map := (register_tracee_postdissectors []).event_postdissectors

/-- An event as the host presents it after initialisation: the fields the
plugin declared, with the given values for the current event. -/
def event_of (fields : List (String × field_value)) : field_catalog :=
  { wanted := (register_tracee_postdissectors []).wanted
    values := fun name => fields.lookup name }

/-- A packet whose Info column holds `text` and to which nothing was written yet. -/
def packet_with (text : String) : packet_info := { col_info := text, writes := [] }

/-- The content type "truncated at the first `;` character", stated on its own
(not through `strchr`): the characters of `s` before its first `;`, all of `s`
when it has none. The code's computation is `content_type_short`. -/
def before_semicolon (s : String) : String := ⟨s.data.takeWhile (fun x => decide (x ≠ ';'))⟩

/-! ## The shape of a rule's writes -/

/-- Whether a write is a set (an overwrite) rather than an append. -/
def is_set : col_write → Bool
  | col_write.set _ => true
  | col_write.append _ => false

/-- The write-shape invariant on the sequence of writes of one call: at most
two writes, at most one of them a set, and no append followed (at any later
position) by a set. -/
def write_shape (ops : List col_write) : Prop :=
  ops.length ≤ 2 ∧ ops.countP is_set ≤ 1 ∧
  ∀ (i j : Nat) (a s : String), i < j →
    ops[i]? = some (col_write.append a) → ops[j]? ≠ some (col_write.set s)

/-- A call that took the packet from `before` to `after` added the writes
`ops` to the log, and `ops` has the write shape. -/
def shaped_writes (before after : packet_info) : Prop :=
  ∃ ops, after.writes = before.writes ++ ops ∧ write_shape ops

/-! ## The field names declared and the field names looked up -/

/-- The argument of each `register_wanted_field` call of
`register_wanted_fields`, in the order of the calls. -/
def register_wanted_fields_names : List String :=
  ["tracee.eventName",
   "tracee.args.pathname", "tracee.args.command_line",
   "tracee.proto_http_request.method", "tracee.proto_http_request.protocol",
   "tracee.proto_http_request.uri_path", "http.content_type",
   "tracee.proto_http.direction", "tracee.proto_http.method", "tracee.proto_http.protocol",
   "tracee.proto_http.uri_path", "tracee.proto_http.status",
   "tracee.sockaddr.sa_family", "tracee.sockaddr.sin_addr", "tracee.sockaddr.sin_port",
   "tracee.sockaddr.sin6_addr", "tracee.sockaddr.sin6_port",
   "tracee.args.alert",
   "tracee.args.File_descriptor", "tracee.args.IP_address", "tracee.args.Port"]

/-- The argument of each `wanted_field_get_str` / `wanted_field_get_int` call
of the file, in source order: `dissect_sched_process_exec`,
`dissect_net_packet_http_request`, `dissect_net_packet_http`,
`dissect_security_socket_bind_connect`, `dissect_dynamic_code_loading`,
`dissect_fileless_execution`, `dissect_stdio_over_socket`, `postdissect_event`. -/
def wanted_field_lookups : List String :=
  ["tracee.args.pathname", "tracee.args.command_line",
   "tracee.proto_http_request.method", "tracee.proto_http_request.protocol",
   "tracee.proto_http_request.uri_path", "http.content_type",
   "tracee.proto_http.direction", "tracee.proto_http.protocol", "http.content_type",
   "tracee.proto_http.method", "tracee.proto_http.uri_path", "tracee.proto_http.status",
   "tracee.sockaddr.sa_family", "tracee.sockaddr.sin_addr", "tracee.sockaddr.sin_port",
   "tracee.sockaddr.sin6_addr", "tracee.sockaddr.sin6_port",
   "tracee.args.alert",
   "tracee.args.pathname",
   "tracee.args.File_descriptor", "tracee.args.IP_address", "tracee.args.Port",
   "tracee.eventName"]

/-- Two field catalogs answer every string and integer lookup of the names in
`names` alike. -/
def agree_on (names : List String) (fc fc2 : field_catalog) : Prop :=
  ∀ name ∈ names,
    wanted_field_get_str fc name = wanted_field_get_str fc2 name ∧
    wanted_field_get_int fc name = wanted_field_get_int fc2 name

/-! ## Events in sequence -/

/-- Modelled from the spec: the state the plugin keeps from one event to the
next, which is the registry of this file and the field catalog kept by the
decoder in another file of the plugin (the declared names, and the values
resolved for the event in flight). -/
structure plugin_state where
  event_postdissectors : wmem_map
  catalog : field_catalog

/-- Modelled from the spec: the decoder, in another file of the plugin, makes
the next event current: "the per-event snapshot is logically reset for every
new event", so the resolved values become that event's own values; the declared
names stay. -/
def begin_event (st : plugin_state) (values : String → Option field_value) : plugin_state :=
  { event_postdissectors := st.event_postdissectors
    catalog := { wanted := st.catalog.wanted, values := values } }

/-- Modelled from the spec: one call of `process` by the host, for the event
with the given field values and packet: the event is made current, then
`postdissect_event` runs on the plugin's state. The state returned is the one
the next event finds; `postdissect_event` itself writes neither the registry
nor the catalog, so the values of this event are still in it. -/
def process_event (st : plugin_state) (values : String → Option field_value)
    (pinfo : packet_info) : plugin_state × (Int × packet_info) :=
  let st1 := begin_event st values
  (st1, postdissect_event st1.event_postdissectors st1.catalog pinfo)

/-- Modelled from the spec: the events of a run processed one at a time, in
the order the host delivers them; the state after the last one. -/
def process_events (st : plugin_state) :
    List ((String → Option field_value) × packet_info) → plugin_state
  | [] => st
  | (values, pinfo) :: rest => process_events (process_event st values pinfo).1 rest

/-- The plugin state after initialisation, before any event. -/
def initial_state : plugin_state :=
  { event_postdissectors := (register_tracee_postdissectors []).event_postdissectors
    catalog := { wanted := (register_tracee_postdissectors []).wanted, values := fun _ => none } }

/-! ## Lemmas on the string functions -/

theorem strcmp_loop_eq_zero_iff (a b : List Char) : strcmp_loop a b = 0 ↔ a = b := by
  induction a generalizing b with
  | nil => cases b <;> simp [strcmp_loop]
  | cons c1 r1 ih =>
    cases b with
    | nil => simp [strcmp_loop]
    | cons c2 r2 =>
      by_cases h : c1 = c2
      · simp [strcmp_loop, h, ih]
      · by_cases h2 : c1.toNat < c2.toNat <;> simp [strcmp_loop, h, h2]

theorem strcmp_eq_zero_iff (a b : String) : strcmp a b = 0 ↔ a = b := by
  unfold strcmp
  rw [strcmp_loop_eq_zero_iff]
  constructor
  · intro h
    exact String.ext h
  · intro h
    rw [h]

theorem g_str_equal_iff (a b : String) : g_str_equal a b = true ↔ a = b := by
  simp [g_str_equal, strcmp_eq_zero_iff]

theorem strncmp_loop_length_eq_zero_iff (a b : List Char) :
    strncmp_loop a b a.length = 0 ↔ a <+: b := by
  induction a generalizing b with
  | nil => simp [strncmp_loop]
  | cons c1 r1 ih =>
    cases b with
    | nil => simp [strncmp_loop]
    | cons c2 r2 =>
      by_cases h : c1 = c2
      · simp [strncmp_loop, h, ih, List.cons_prefix_cons]
      · by_cases h2 : c1.toNat < c2.toNat <;>
          simp [strncmp_loop, h, h2, List.cons_prefix_cons]

theorem strchr_loop_none (c : Char) (l : List Char) (i : Nat) :
    strchr_loop c l i = none ↔ c ∉ l := by
  induction l generalizing i with
  | nil => simp [strchr_loop]
  | cons x rest ih =>
    by_cases h : x = c
    · simp [strchr_loop, h]
    · have h2 : ¬ c = x := fun e => h e.symm
      simp [strchr_loop, h, h2, ih]

theorem format_s_colon_s (a b : String) : format "%s: %s" [a, b] = a ++ ": " ++ b := by
  apply String.ext
  simp [format, format_loop]

theorem format_s_s_s (a b c : String) :
    format "%s %s %s" [a, b, c] = a ++ " " ++ b ++ " " ++ c := by
  apply String.ext
  simp [format, format_loop]

theorem format_s_s (a b : String) : format "%s %s" [a, b] = a ++ " " ++ b := by
  apply String.ext
  simp [format, format_loop]

theorem format_paren1 (a : String) : format " (%s)" [a] = " (" ++ a ++ ")" := by
  apply String.ext
  simp [format, format_loop]

theorem format_paren2 (a : String) : format "  (%s)" [a] = "  (" ++ a ++ ")" := by
  apply String.ext
  simp [format, format_loop]

theorem format_to_port (a b c : String) :
    format "%s to %s port %s" [a, b, c] = a ++ " to " ++ b ++ " port " ++ c := by
  apply String.ext
  simp [format, format_loop]

theorem format_forwarded (a b c : String) :
    format "%s forwarded to %s port %s" [a, b, c]
      = a ++ " forwarded to " ++ b ++ " port " ++ c := by
  apply String.ext
  simp [format, format_loop]

theorem format_running_from (a : String) :
    format "Running from %s" [a] = "Running from " ++ a := by
  apply String.ext
  simp [format, format_loop]

theorem take_length_takeWhile (p : Char → Bool) (l : List Char) :
    l.take (l.takeWhile p).length = l.takeWhile p := by
  induction l with
  | nil => simp
  | cons x rest ih =>
    by_cases h : p x
    · simp [List.takeWhile_cons, h, ih]
    · simp [List.takeWhile_cons, h]

theorem strchr_loop_some (c : Char) (l : List Char) (i j : Nat)
    (h : strchr_loop c l i = some j) :
    j = i + (l.takeWhile (fun x => decide (x ≠ c))).length := by
  induction l generalizing i with
  | nil => simp [strchr_loop] at h
  | cons x rest ih =>
    by_cases hx : x = c
    · simp [strchr_loop, hx] at h
      simp [List.takeWhile_cons, hx, h]
    · simp [strchr_loop, hx] at h
      have := ih (i + 1) h
      simp [List.takeWhile_cons, hx, this]
      omega

theorem content_type_short_some (ct : String) :
    content_type_short (some ct) = some (before_semicolon ct) := by
  unfold content_type_short
  simp only [wmem_strdup, strchr]
  cases h : strchr_loop ';' ct.data 0 with
  | none =>
    have hn := (strchr_loop_none ';' ct.data 0).mp h
    simp only [before_semicolon]
    congr 2
    symm
    rw [List.takeWhile_eq_self_iff]
    intro x hx
    simp only [ne_eq, decide_not, Bool.not_eq_true', decide_eq_false_iff_not]
    intro e
    exact hn (e ▸ hx)
  | some j =>
    have hj := strchr_loop_some ';' ct.data 0 j h
    simp only [Nat.zero_add] at hj
    simp only [terminate_at, before_semicolon, hj, take_length_takeWhile]

/-! ## The registry after initialisation -/

theorem event_postdissectors_entries :
    event_postdissectors =
      [("sched_process_exec", dissect_sched_process_exec),
       ("net_packet_http_request", dissect_net_packet_http_request),
       ("net_packet_http", dissect_net_packet_http),
       ("security_socket_bind", dissect_security_socket_bind),
       ("security_socket_connect", dissect_security_socket_connect),
       ("dynamic_code_loading", dissect_dynamic_code_loading),
       ("fileless_execution", dissect_fileless_execution),
       ("stdio_over_socket", dissect_stdio_over_socket)] := by
  rfl

theorem wmem_map_lookup_event_postdissectors (name : String) :
    wmem_map_lookup event_postdissectors name =
      if name = "sched_process_exec" then some dissect_sched_process_exec
      else if name = "net_packet_http_request" then some dissect_net_packet_http_request
      else if name = "net_packet_http" then some dissect_net_packet_http
      else if name = "security_socket_bind" then some dissect_security_socket_bind
      else if name = "security_socket_connect" then some dissect_security_socket_connect
      else if name = "dynamic_code_loading" then some dissect_dynamic_code_loading
      else if name = "fileless_execution" then some dissect_fileless_execution
      else if name = "stdio_over_socket" then some dissect_stdio_over_socket
      else none := by
  have key : ∀ k : String, (g_str_equal k name = true) = (name = k) := fun k =>
    propext ((g_str_equal_iff k name).trans eq_comm)
  rw [event_postdissectors_entries]
  simp only [wmem_map_lookup, key]

/-! ## Every rule returns 0 -/

theorem dissect_sched_process_exec_fst (fc : field_catalog) (pinfo : packet_info) :
    (dissect_sched_process_exec fc pinfo).1 = 0 := by
  unfold dissect_sched_process_exec
  repeat (first | rfl | split | dsimp only)

theorem dissect_net_packet_http_request_fst (fc : field_catalog) (pinfo : packet_info) :
    (dissect_net_packet_http_request fc pinfo).1 = 0 := by
  unfold dissect_net_packet_http_request
  repeat (first | rfl | split | dsimp only)

theorem dissect_net_packet_http_fst (fc : field_catalog) (pinfo : packet_info) :
    (dissect_net_packet_http fc pinfo).1 = 0 := by
  unfold dissect_net_packet_http
  repeat (first | rfl | split | dsimp only)

theorem dissect_security_socket_bind_connect_fst (fc : field_catalog) (pinfo : packet_info)
    (verb : String) : (dissect_security_socket_bind_connect fc pinfo verb).1 = 0 := by
  unfold dissect_security_socket_bind_connect
  repeat (first | rfl | split | dsimp only)

theorem dissect_dynamic_code_loading_fst (fc : field_catalog) (pinfo : packet_info) :
    (dissect_dynamic_code_loading fc pinfo).1 = 0 := by
  unfold dissect_dynamic_code_loading
  repeat (first | rfl | split | dsimp only)

theorem dissect_fileless_execution_fst (fc : field_catalog) (pinfo : packet_info) :
    (dissect_fileless_execution fc pinfo).1 = 0 := by
  unfold dissect_fileless_execution
  repeat (first | rfl | split | dsimp only)

theorem dissect_stdio_over_socket_fst (fc : field_catalog) (pinfo : packet_info) :
    (dissect_stdio_over_socket fc pinfo).1 = 0 := by
  unfold dissect_stdio_over_socket
  repeat (first | rfl | split | dsimp only)

/-! ## The dispatcher -/

/-- C1: for every event and every prior packet state, if the `tracee.eventName`
field is absent, or is present but is none of the eight registered event names,
`postdissect_event` returns 0 and leaves the packet state (the Info column text
and the log of writes) as it was. -/
theorem postdissect_event_not_handled (fc : field_catalog) (pinfo : packet_info)
    (h : wanted_field_get_str fc "tracee.eventName" = none ∨
      ∃ name, wanted_field_get_str fc "tracee.eventName" = some name ∧
        name ∉ ["sched_process_exec", "net_packet_http_request", "net_packet_http",
          "security_socket_bind", "security_socket_connect", "dynamic_code_loading",
          "fileless_execution", "stdio_over_socket"]) :
    postdissect_event event_postdissectors fc pinfo = (0, pinfo) := by
  unfold postdissect_event
  rcases h with h | ⟨name, h, hn⟩
  · rw [h]
  · rw [h]
    simp only [List.mem_cons, List.mem_singleton, List.not_mem_nil, or_false, not_or] at hn
    obtain ⟨h1, h2, h3, h4, h5, h6, h7, h8⟩ := hn
    simp only [wmem_map_lookup_event_postdissectors, h1, h2, h3, h4, h5, h6, h7, h8, if_false]

/-- Witness for C1: an event without `tracee.eventName`, and an event named
`openat`, both leave the column text "prior" alone and return 0. -/
theorem postdissect_event_not_handled_witness :
    postdissect_event event_postdissectors (event_of [("tracee.args.pathname", .str "/x")])
        (packet_with "prior") = (0, packet_with "prior") ∧
    postdissect_event event_postdissectors
        (event_of [("tracee.eventName", .str "openat"), ("tracee.args.pathname", .str "/x")])
        (packet_with "prior") = (0, packet_with "prior") :=
  ⟨postdissect_event_not_handled _ _ (Or.inl (by decide)),
   postdissect_event_not_handled _ _ (Or.inr ⟨"openat", by decide, by decide⟩)⟩

/-- Counterexample to C2 as stated: the event named `net_packet_http` with
direction "foo" carries a registered event name, yet `postdissect_event` does
not return a non-zero (true) value: the invoked rule returns 0, and that is
what the dispatcher returns. -/
theorem postdissect_event_registered_not_true :
    wanted_field_get_str
        (event_of [("tracee.eventName", .str "net_packet_http"),
          ("tracee.proto_http.direction", .str "foo")]) "tracee.eventName"
      = some "net_packet_http" ∧
    ¬ (postdissect_event event_postdissectors
        (event_of [("tracee.eventName", .str "net_packet_http"),
          ("tracee.proto_http.direction", .str "foo")]) (packet_with "")).1 ≠ 0 := by
  decide

/-- C2, amended: for every event whose `tracee.eventName` is one of the eight
registered names, `postdissect_event` invokes the rule registered under that
name and returns that rule's return value, which is 0, whether or not the rule
wrote anything; in particular for `net_packet_http` with a direction other than
"request" and "response" nothing is written and 0 is returned. -/
theorem postdissect_event_registered (fc : field_catalog) (pinfo : packet_info) (name : String)
    (h : wanted_field_get_str fc "tracee.eventName" = some name)
    (hn : name ∈ ["sched_process_exec", "net_packet_http_request", "net_packet_http",
          "security_socket_bind", "security_socket_connect", "dynamic_code_loading",
          "fileless_execution", "stdio_over_socket"]) :
    (∃ rule, wmem_map_lookup event_postdissectors name = some rule ∧
      postdissect_event event_postdissectors fc pinfo = rule fc pinfo) ∧
    (postdissect_event event_postdissectors fc pinfo).1 = 0 ∧
    (name = "net_packet_http" →
      ∀ d, wanted_field_get_str fc "tracee.proto_http.direction" = some d →
        d ≠ "request" → d ≠ "response" →
        postdissect_event event_postdissectors fc pinfo = (0, pinfo)) := by
  have hpost : ∀ rule, wmem_map_lookup event_postdissectors name = some rule →
      postdissect_event event_postdissectors fc pinfo = rule fc pinfo := by
    intro rule hr
    unfold postdissect_event
    rw [h]
    simp only [hr]
  simp only [List.mem_cons, List.mem_singleton, List.not_mem_nil, or_false] at hn
  have hlook := wmem_map_lookup_event_postdissectors name
  rcases hn with hn | hn | hn | hn | hn | hn | hn | hn <;> subst hn <;>
    simp only [String.reduceEq, if_true, if_false] at hlook
  · exact ⟨⟨_, hlook, hpost _ hlook⟩, by rw [hpost _ hlook, dissect_sched_process_exec_fst],
      fun e => absurd e (by decide)⟩
  · exact ⟨⟨_, hlook, hpost _ hlook⟩,
      by rw [hpost _ hlook, dissect_net_packet_http_request_fst],
      fun e => absurd e (by decide)⟩
  · refine ⟨⟨_, hlook, hpost _ hlook⟩, by rw [hpost _ hlook, dissect_net_packet_http_fst], ?_⟩
    intro _ d hd h1 h2
    rw [hpost _ hlook]
    unfold dissect_net_packet_http
    rw [hd]
    simp only [strcmp_eq_zero_iff, h1, h2, if_false]
  · exact ⟨⟨_, hlook, hpost _ hlook⟩,
      by rw [hpost _ hlook]; exact dissect_security_socket_bind_connect_fst _ _ _,
      fun e => absurd e (by decide)⟩
  · exact ⟨⟨_, hlook, hpost _ hlook⟩,
      by rw [hpost _ hlook]; exact dissect_security_socket_bind_connect_fst _ _ _,
      fun e => absurd e (by decide)⟩
  · exact ⟨⟨_, hlook, hpost _ hlook⟩, by rw [hpost _ hlook, dissect_dynamic_code_loading_fst],
      fun e => absurd e (by decide)⟩
  · exact ⟨⟨_, hlook, hpost _ hlook⟩, by rw [hpost _ hlook, dissect_fileless_execution_fst],
      fun e => absurd e (by decide)⟩
  · exact ⟨⟨_, hlook, hpost _ hlook⟩, by rw [hpost _ hlook, dissect_stdio_over_socket_fst],
      fun e => absurd e (by decide)⟩

/-- Witness for the amended C2: the `net_packet_http` event with direction
"foo" returns 0 and leaves the packet as it was. -/
theorem postdissect_event_registered_witness :
    (postdissect_event event_postdissectors
        (event_of [("tracee.eventName", .str "net_packet_http"),
          ("tracee.proto_http.direction", .str "foo")]) (packet_with "prior")).1 = 0 ∧
    postdissect_event event_postdissectors
        (event_of [("tracee.eventName", .str "net_packet_http"),
          ("tracee.proto_http.direction", .str "foo")]) (packet_with "prior")
      = (0, packet_with "prior") :=
  have h := postdissect_event_registered
    (event_of [("tracee.eventName", .str "net_packet_http"),
      ("tracee.proto_http.direction", .str "foo")]) (packet_with "prior") "net_packet_http"
    (by decide) (by decide)
  ⟨h.2.1, h.2.2 rfl "foo" (by decide) (by decide) (by decide)⟩

/-- C3: initialisation leaves a registry of exactly eight pairwise distinct
keys, whatever fields were declared before, and `postdissect_event` does
exactly what the one rule bound to the event name does (its return value, the
column text and the writes made), and nothing when there is no such rule:
`sched_process_exec` runs the process-exec rule, `net_packet_http_request` the
legacy HTTP rule, `net_packet_http` the unified HTTP rule,
`security_socket_bind` the socket rule with verb "Bind",
`security_socket_connect` the socket rule with verb "Connect", and
`dynamic_code_loading`, `fileless_execution`, `stdio_over_socket` their own
rules. -/
theorem register_tracee_postdissectors_dispatch :
    (∀ wanted, (register_tracee_postdissectors wanted).event_postdissectors
      = event_postdissectors) ∧
    event_postdissectors.map Prod.fst =
      ["sched_process_exec", "net_packet_http_request", "net_packet_http",
        "security_socket_bind", "security_socket_connect", "dynamic_code_loading",
        "fileless_execution", "stdio_over_socket"] ∧
    event_postdissectors.length = 8 ∧
    (event_postdissectors.map Prod.fst).Nodup ∧
    ∀ (fc : field_catalog) (pinfo : packet_info),
      postdissect_event event_postdissectors fc pinfo =
        match wanted_field_get_str fc "tracee.eventName" with
        | none => (0, pinfo)
        | some name =>
          if name = "sched_process_exec" then dissect_sched_process_exec fc pinfo
          else if name = "net_packet_http_request" then dissect_net_packet_http_request fc pinfo
          else if name = "net_packet_http" then dissect_net_packet_http fc pinfo
          else if name = "security_socket_bind" then
            dissect_security_socket_bind_connect fc pinfo "Bind"
          else if name = "security_socket_connect" then
            dissect_security_socket_bind_connect fc pinfo "Connect"
          else if name = "dynamic_code_loading" then dissect_dynamic_code_loading fc pinfo
          else if name = "fileless_execution" then dissect_fileless_execution fc pinfo
          else if name = "stdio_over_socket" then dissect_stdio_over_socket fc pinfo
          else (0, pinfo) := by
  refine ⟨fun _ => rfl, ?_, ?_, ?_, ?_⟩
  · rw [event_postdissectors_entries]
    rfl
  · rw [event_postdissectors_entries]
    rfl
  · rw [event_postdissectors_entries]
    decide
  · intro fc pinfo
    unfold postdissect_event
    cases wanted_field_get_str fc "tracee.eventName" with
    | none => rfl
    | some name =>
      simp only [wmem_map_lookup_event_postdissectors]
      split_ifs <;> rfl

/-! ## The rules -/

/-- C4: process-exec rule. With `pathname` and `command_line` both present,
the column is set to `command_line` itself when `pathname` is a prefix of
`command_line`, and to `pathname ++ ": " ++ command_line` when it is not; so
the column ends up equal to `command_line` if and only if `pathname` is a
prefix of it. In both cases the rule makes one write, a set. -/
theorem dissect_sched_process_exec_summary (fc : field_catalog) (pinfo : packet_info)
    (pathname cmdline : String)
    (hp : wanted_field_get_str fc "tracee.args.pathname" = some pathname)
    (hc : wanted_field_get_str fc "tracee.args.command_line" = some cmdline) :
    (pathname.data <+: cmdline.data →
      (dissect_sched_process_exec fc pinfo).2.col_info = cmdline ∧
      (dissect_sched_process_exec fc pinfo).2.writes = pinfo.writes ++ [col_write.set cmdline]) ∧
    (¬ pathname.data <+: cmdline.data →
      (dissect_sched_process_exec fc pinfo).2.col_info = pathname ++ ": " ++ cmdline ∧
      (dissect_sched_process_exec fc pinfo).2.writes
        = pinfo.writes ++ [col_write.set (pathname ++ ": " ++ cmdline)]) ∧
    ((dissect_sched_process_exec fc pinfo).2.col_info = cmdline ↔
      pathname.data <+: cmdline.data) := by
  have hcmp : strncmp pathname cmdline (strlen pathname) = 0 ↔ pathname.data <+: cmdline.data :=
    strncmp_loop_length_eq_zero_iff pathname.data cmdline.data
  have hyes : pathname.data <+: cmdline.data →
      dissect_sched_process_exec fc pinfo = (0, col_add_str pinfo cmdline) := by
    intro h
    unfold dissect_sched_process_exec
    simp only [hp, hc, hcmp.mpr h, if_true]
  have hno : ¬ pathname.data <+: cmdline.data →
      dissect_sched_process_exec fc pinfo
        = (0, col_add_str pinfo (pathname ++ ": " ++ cmdline)) := by
    intro h
    have h0 : ¬ strncmp pathname cmdline (strlen pathname) = 0 := fun e => h (hcmp.mp e)
    unfold dissect_sched_process_exec
    simp only [hp, hc, h0, if_false, col_add_fstr, format_s_colon_s]
  refine ⟨fun h => ?_, fun h => ?_, ?_⟩
  · rw [hyes h]
    exact ⟨rfl, rfl⟩
  · rw [hno h]
    exact ⟨rfl, rfl⟩
  · constructor
    · intro h
      by_contra hn
      rw [hno hn] at h
      have hlen := congrArg String.length h
      simp only [col_add_str, String.length_append] at hlen
      have : ": ".length = 2 := rfl
      omega
    · intro h
      rw [hyes h]
      rfl

/-- Witness for C4: ("/bin/ls", "/bin/ls -la") gives "/bin/ls -la", and
("/bin/ls", "ls -la") gives "/bin/ls: ls -la". -/
theorem dissect_sched_process_exec_summary_witness :
    (dissect_sched_process_exec
        (event_of [("tracee.args.pathname", .str "/bin/ls"),
          ("tracee.args.command_line", .str "/bin/ls -la")])
        (packet_with "prior")).2.col_info = "/bin/ls -la" ∧
    (dissect_sched_process_exec
        (event_of [("tracee.args.pathname", .str "/bin/ls"),
          ("tracee.args.command_line", .str "ls -la")])
        (packet_with "prior")).2.col_info = "/bin/ls: ls -la" :=
  ⟨((dissect_sched_process_exec_summary
      (event_of [("tracee.args.pathname", .str "/bin/ls"),
        ("tracee.args.command_line", .str "/bin/ls -la")])
      (packet_with "prior") "/bin/ls" "/bin/ls -la" (by decide) (by decide)).1
        (by decide)).1,
   ((dissect_sched_process_exec_summary
      (event_of [("tracee.args.pathname", .str "/bin/ls"),
        ("tracee.args.command_line", .str "ls -la")])
      (packet_with "prior") "/bin/ls" "ls -la" (by decide) (by decide)).2.1
        (by decide)).1⟩

/-- C5: legacy HTTP-request rule. With `method`, `protocol` and `uri_path`
present the column becomes `method ++ " " ++ uri_path ++ " " ++ protocol`,
followed by `"  (" ++ content_type ++ ")"` (two leading spaces, the content
type as it is) when `method` is not "POST" and `http.content_type` is present;
when `method` is "POST", or the content type is absent, there is no suffix. -/
theorem dissect_net_packet_http_request_summary (fc : field_catalog) (pinfo : packet_info)
    (method protocol uri_path : String)
    (hm : wanted_field_get_str fc "tracee.proto_http_request.method" = some method)
    (hp : wanted_field_get_str fc "tracee.proto_http_request.protocol" = some protocol)
    (hu : wanted_field_get_str fc "tracee.proto_http_request.uri_path" = some uri_path) :
    (method ≠ "POST" → ∀ content_type,
      wanted_field_get_str fc "http.content_type" = some content_type →
      (dissect_net_packet_http_request fc pinfo).2.col_info
        = method ++ " " ++ uri_path ++ " " ++ protocol ++ "  (" ++ content_type ++ ")") ∧
    (method = "POST" ∨ wanted_field_get_str fc "http.content_type" = none →
      (dissect_net_packet_http_request fc pinfo).2.col_info
        = method ++ " " ++ uri_path ++ " " ++ protocol) := by
  constructor
  · intro hne content_type hct
    have h0 : ¬ strcmp method "POST" = 0 := fun e => hne ((strcmp_eq_zero_iff _ _).mp e)
    unfold dissect_net_packet_http_request
    simp only [hm, hp, hu, hct, ne_eq, h0, not_false_eq_true, if_true, col_append_fstr,
      col_append_str, col_add_fstr, col_add_str, format_s_s_s, format_paren2,
      String.append_assoc]
  · intro h
    unfold dissect_net_packet_http_request
    rcases h with h | h
    · have h0 : strcmp method "POST" = 0 := (strcmp_eq_zero_iff _ _).mpr h
      simp only [hm, hp, hu, ne_eq, h0, not_true_eq_false, if_false, col_add_fstr,
        col_add_str, format_s_s_s]
    · simp only [hm, hp, hu, h, col_add_fstr, col_add_str, format_s_s_s]
      split <;> rfl

/-- Witness for C5: GET, HTTP/1.1, /x, text/html gives
"GET /x HTTP/1.1  (text/html)"; POST with the same others gives "POST /x HTTP/1.1". -/
theorem dissect_net_packet_http_request_summary_witness :
    (dissect_net_packet_http_request
        (event_of [("tracee.proto_http_request.method", .str "GET"),
          ("tracee.proto_http_request.protocol", .str "HTTP/1.1"),
          ("tracee.proto_http_request.uri_path", .str "/x"),
          ("http.content_type", .str "text/html")])
        (packet_with "prior")).2.col_info = "GET /x HTTP/1.1  (text/html)" ∧
    (dissect_net_packet_http_request
        (event_of [("tracee.proto_http_request.method", .str "POST"),
          ("tracee.proto_http_request.protocol", .str "HTTP/1.1"),
          ("tracee.proto_http_request.uri_path", .str "/x"),
          ("http.content_type", .str "text/html")])
        (packet_with "prior")).2.col_info = "POST /x HTTP/1.1" :=
  ⟨(dissect_net_packet_http_request_summary
      (event_of [("tracee.proto_http_request.method", .str "GET"),
        ("tracee.proto_http_request.protocol", .str "HTTP/1.1"),
        ("tracee.proto_http_request.uri_path", .str "/x"),
        ("http.content_type", .str "text/html")])
      (packet_with "prior") "GET" "HTTP/1.1" "/x" (by decide) (by decide) (by decide)).1
        (by decide) "text/html" (by decide),
   (dissect_net_packet_http_request_summary
      (event_of [("tracee.proto_http_request.method", .str "POST"),
        ("tracee.proto_http_request.protocol", .str "HTTP/1.1"),
        ("tracee.proto_http_request.uri_path", .str "/x"),
        ("http.content_type", .str "text/html")])
      (packet_with "prior") "POST" "HTTP/1.1" "/x" (by decide) (by decide) (by decide)).2
        (Or.inl rfl)⟩

/-- C6: unified HTTP rule, request direction. With direction "request" and
`method`, `uri_path`, `protocol` present the column becomes
`method ++ " " ++ uri_path ++ " " ++ protocol`, followed by
`" (" ++ short ++ ")"` (one leading space) when `http.content_type` is present,
`short` being the content type up to its first `;`, and by nothing when it is
absent. The method is arbitrary: "POST" gets the suffix too. -/
theorem dissect_net_packet_http_request_direction (fc : field_catalog) (pinfo : packet_info)
    (method uri_path protocol : String)
    (hd : wanted_field_get_str fc "tracee.proto_http.direction" = some "request")
    (hm : wanted_field_get_str fc "tracee.proto_http.method" = some method)
    (hu : wanted_field_get_str fc "tracee.proto_http.uri_path" = some uri_path)
    (hp : wanted_field_get_str fc "tracee.proto_http.protocol" = some protocol) :
    (∀ content_type, wanted_field_get_str fc "http.content_type" = some content_type →
      (dissect_net_packet_http fc pinfo).2.col_info
        = method ++ " " ++ uri_path ++ " " ++ protocol
            ++ " (" ++ before_semicolon content_type ++ ")") ∧
    (wanted_field_get_str fc "http.content_type" = none →
      (dissect_net_packet_http fc pinfo).2.col_info
        = method ++ " " ++ uri_path ++ " " ++ protocol) := by
  have h0 : strcmp "request" "request" = 0 := (strcmp_eq_zero_iff _ _).mpr rfl
  constructor
  · intro content_type hct
    unfold dissect_net_packet_http
    simp only [hd, hm, hu, hp, hct, h0, if_true, content_type_short_some, col_append_fstr,
      col_append_str, col_add_fstr, col_add_str, format_s_s_s, format_paren1,
      String.append_assoc]
  · intro hct
    unfold dissect_net_packet_http
    simp only [hd, hm, hu, hp, hct, h0, if_true, content_type_short, col_add_fstr,
      col_add_str, format_s_s_s]

/-- Witness for C6: GET, /x, HTTP/1.1, "text/html; charset=utf-8" gives
"GET /x HTTP/1.1 (text/html)", and so does POST with its own method name. -/
theorem dissect_net_packet_http_request_direction_witness :
    (dissect_net_packet_http
        (event_of [("tracee.proto_http.direction", .str "request"),
          ("tracee.proto_http.method", .str "GET"),
          ("tracee.proto_http.uri_path", .str "/x"),
          ("tracee.proto_http.protocol", .str "HTTP/1.1"),
          ("http.content_type", .str "text/html; charset=utf-8")])
        (packet_with "prior")).2.col_info = "GET /x HTTP/1.1 (text/html)" ∧
    (dissect_net_packet_http
        (event_of [("tracee.proto_http.direction", .str "request"),
          ("tracee.proto_http.method", .str "POST"),
          ("tracee.proto_http.uri_path", .str "/x"),
          ("tracee.proto_http.protocol", .str "HTTP/1.1"),
          ("http.content_type", .str "text/html; charset=utf-8")])
        (packet_with "prior")).2.col_info = "POST /x HTTP/1.1 (text/html)" :=
  ⟨(dissect_net_packet_http_request_direction
      (event_of [("tracee.proto_http.direction", .str "request"),
        ("tracee.proto_http.method", .str "GET"),
        ("tracee.proto_http.uri_path", .str "/x"),
        ("tracee.proto_http.protocol", .str "HTTP/1.1"),
        ("http.content_type", .str "text/html; charset=utf-8")])
      (packet_with "prior") "GET" "/x" "HTTP/1.1"
      (by decide) (by decide) (by decide) (by decide)).1
        "text/html; charset=utf-8" (by decide),
   (dissect_net_packet_http_request_direction
      (event_of [("tracee.proto_http.direction", .str "request"),
        ("tracee.proto_http.method", .str "POST"),
        ("tracee.proto_http.uri_path", .str "/x"),
        ("tracee.proto_http.protocol", .str "HTTP/1.1"),
        ("http.content_type", .str "text/html; charset=utf-8")])
      (packet_with "prior") "POST" "/x" "HTTP/1.1"
      (by decide) (by decide) (by decide) (by decide)).1
        "text/html; charset=utf-8" (by decide)⟩

/-- C7: unified HTTP rule, response direction. With direction "response" and
`protocol`, `status` present the column becomes `protocol ++ " " ++ status`,
followed by `"  (" ++ short ++ ")"` (two leading spaces) when
`http.content_type` is present and by nothing when it is absent; and two
events with direction "response" that differ at most in their `method` and
`uri_path` fields get the same result. -/
theorem dissect_net_packet_http_response_direction (fc : field_catalog) (pinfo : packet_info)
    (hd : wanted_field_get_str fc "tracee.proto_http.direction" = some "response") :
    (∀ protocol status,
      wanted_field_get_str fc "tracee.proto_http.protocol" = some protocol →
      wanted_field_get_str fc "tracee.proto_http.status" = some status →
      (∀ content_type, wanted_field_get_str fc "http.content_type" = some content_type →
        (dissect_net_packet_http fc pinfo).2.col_info
          = protocol ++ " " ++ status ++ "  (" ++ before_semicolon content_type ++ ")") ∧
      (wanted_field_get_str fc "http.content_type" = none →
        (dissect_net_packet_http fc pinfo).2.col_info = protocol ++ " " ++ status)) ∧
    (∀ fc2 : field_catalog,
      (∀ name, name ≠ "tracee.proto_http.method" → name ≠ "tracee.proto_http.uri_path" →
        wanted_field_get_str fc2 name = wanted_field_get_str fc name) →
      dissect_net_packet_http fc2 pinfo = dissect_net_packet_http fc pinfo) := by
  have h0 : strcmp "response" "request" ≠ 0 := by
    rw [ne_eq, strcmp_eq_zero_iff]
    decide
  have h1 : strcmp "response" "response" = 0 := (strcmp_eq_zero_iff _ _).mpr rfl
  constructor
  · intro protocol status hp hs
    constructor
    · intro content_type hct
      unfold dissect_net_packet_http
      simp only [hd, hp, hs, hct, h0, h1, if_true, if_false, content_type_short_some,
        col_append_fstr, col_append_str, col_add_fstr, col_add_str, format_s_s, format_paren2,
        String.append_assoc, Bool.false_eq_true]
    · intro hct
      unfold dissect_net_packet_http
      simp only [hd, hp, hs, hct, h0, h1, if_true, if_false, content_type_short,
        col_add_fstr, col_add_str, format_s_s, Bool.false_eq_true]
  · intro fc2 hsame
    have e1 := hsame "tracee.proto_http.direction" (by decide) (by decide)
    have e2 := hsame "tracee.proto_http.protocol" (by decide) (by decide)
    have e3 := hsame "http.content_type" (by decide) (by decide)
    have e4 := hsame "tracee.proto_http.status" (by decide) (by decide)
    unfold dissect_net_packet_http
    simp only [e1, e2, e3, e4, hd, h0, h1, if_true, if_false, Bool.false_eq_true]

/-- Witness for C7: HTTP/1.1, "200 OK", no content type gives "HTTP/1.1 200 OK",
also when the event carries a method and a uri_path. -/
theorem dissect_net_packet_http_response_direction_witness :
    (dissect_net_packet_http
        (event_of [("tracee.proto_http.direction", .str "response"),
          ("tracee.proto_http.protocol", .str "HTTP/1.1"),
          ("tracee.proto_http.status", .str "200 OK")])
        (packet_with "prior")).2.col_info = "HTTP/1.1 200 OK" ∧
    dissect_net_packet_http
        (event_of [("tracee.proto_http.direction", .str "response"),
          ("tracee.proto_http.protocol", .str "HTTP/1.1"),
          ("tracee.proto_http.status", .str "200 OK"),
          ("tracee.proto_http.method", .str "GET"),
          ("tracee.proto_http.uri_path", .str "/x")])
        (packet_with "prior")
      = dissect_net_packet_http
        (event_of [("tracee.proto_http.direction", .str "response"),
          ("tracee.proto_http.protocol", .str "HTTP/1.1"),
          ("tracee.proto_http.status", .str "200 OK")])
        (packet_with "prior") :=
  have h := dissect_net_packet_http_response_direction
    (event_of [("tracee.proto_http.direction", .str "response"),
      ("tracee.proto_http.protocol", .str "HTTP/1.1"),
      ("tracee.proto_http.status", .str "200 OK")])
    (packet_with "prior") (by decide)
  ⟨(h.1 "HTTP/1.1" "200 OK" (by decide) (by decide)).2 (by decide),
   h.2 (event_of [("tracee.proto_http.direction", .str "response"),
      ("tracee.proto_http.protocol", .str "HTTP/1.1"),
      ("tracee.proto_http.status", .str "200 OK"),
      ("tracee.proto_http.method", .str "GET"),
      ("tracee.proto_http.uri_path", .str "/x")])
    (by
      intro name h1 h2
      simp only [wanted_field_get_str, event_of, List.lookup]
      split
      · have e1 : (name == "tracee.proto_http.method") = false := by simpa using h1
        have e2 : (name == "tracee.proto_http.uri_path") = false := by simpa using h2
        simp only [e1, e2]
      · rfl)⟩

/-- C8: socket bind/connect rule, for every verb (the two registered rules
pass "Bind" and "Connect"). With `sa_family` "AF_INET" and `sin_addr`,
`sin_port` present the column is set to `verb ++ " to " ++ sin_addr ++ " port "
++ sin_port`; with "AF_INET6" and `sin6_addr`, `sin6_port` present it is set to
`verb ++ " to " ++ sin6_addr ++ " port " ++ sin6_port`; only the pair selected
by the family is read, so with "AF_INET6" and a member of the ipv6 pair absent
nothing is written, whatever `sin_addr` and `sin_port` hold. -/
theorem dissect_security_socket_bind_connect_summary (fc : field_catalog) (pinfo : packet_info)
    (verb : String) :
    dissect_security_socket_bind fc pinfo = dissect_security_socket_bind_connect fc pinfo "Bind" ∧
    dissect_security_socket_connect fc pinfo
      = dissect_security_socket_bind_connect fc pinfo "Connect" ∧
    (wanted_field_get_str fc "tracee.sockaddr.sa_family" = some "AF_INET" →
      ∀ addr port, wanted_field_get_str fc "tracee.sockaddr.sin_addr" = some addr →
        wanted_field_get_str fc "tracee.sockaddr.sin_port" = some port →
        (dissect_security_socket_bind_connect fc pinfo verb).2.col_info
          = verb ++ " to " ++ addr ++ " port " ++ port ∧
        (dissect_security_socket_bind_connect fc pinfo verb).2.writes
          = pinfo.writes ++ [col_write.set (verb ++ " to " ++ addr ++ " port " ++ port)]) ∧
    (wanted_field_get_str fc "tracee.sockaddr.sa_family" = some "AF_INET6" →
      (∀ addr port, wanted_field_get_str fc "tracee.sockaddr.sin6_addr" = some addr →
        wanted_field_get_str fc "tracee.sockaddr.sin6_port" = some port →
        (dissect_security_socket_bind_connect fc pinfo verb).2.col_info
          = verb ++ " to " ++ addr ++ " port " ++ port ∧
        (dissect_security_socket_bind_connect fc pinfo verb).2.writes
          = pinfo.writes ++ [col_write.set (verb ++ " to " ++ addr ++ " port " ++ port)]) ∧
      (wanted_field_get_str fc "tracee.sockaddr.sin6_addr" = none ∨
        wanted_field_get_str fc "tracee.sockaddr.sin6_port" = none →
        dissect_security_socket_bind_connect fc pinfo verb = (0, pinfo))) := by
  have h4 : strcmp "AF_INET" "AF_INET" = 0 := (strcmp_eq_zero_iff _ _).mpr rfl
  have h64 : ¬ strcmp "AF_INET6" "AF_INET" = 0 := by
    rw [strcmp_eq_zero_iff]
    decide
  have h6 : strcmp "AF_INET6" "AF_INET6" = 0 := (strcmp_eq_zero_iff _ _).mpr rfl
  refine ⟨rfl, rfl, ?_, ?_⟩
  · intro hf addr port ha hp
    unfold dissect_security_socket_bind_connect
    simp only [hf, ha, hp, h4, if_true, col_add_fstr, col_add_str, format_to_port, and_self]
  · intro hf
    constructor
    · intro addr port ha hp
      unfold dissect_security_socket_bind_connect
      simp only [hf, ha, hp, h64, h6, if_true, if_false, col_add_fstr, col_add_str,
        format_to_port, and_self]
    · intro h
      unfold dissect_security_socket_bind_connect
      simp only [hf, h64, h6, if_true, if_false]
      rcases h with h | h
      · simp only [h]
      · simp only [h]
        split
        · rename_i heq
          cases heq
        · rename_i heq
          exact absurd heq (by simp)
        · rfl

/-- Witness for C8: AF_INET, 1.2.3.4, 80 under `dissect_security_socket_bind`
gives "Bind to 1.2.3.4 port 80"; AF_INET6 with only the ipv4 pair present
writes nothing. -/
theorem dissect_security_socket_bind_connect_summary_witness :
    (dissect_security_socket_bind
        (event_of [("tracee.sockaddr.sa_family", .str "AF_INET"),
          ("tracee.sockaddr.sin_addr", .str "1.2.3.4"),
          ("tracee.sockaddr.sin_port", .str "80")])
        (packet_with "prior")).2.col_info = "Bind to 1.2.3.4 port 80" ∧
    dissect_security_socket_bind_connect
        (event_of [("tracee.sockaddr.sa_family", .str "AF_INET6"),
          ("tracee.sockaddr.sin_addr", .str "1.2.3.4"),
          ("tracee.sockaddr.sin_port", .str "80")])
        (packet_with "prior") "Connect" = (0, packet_with "prior") :=
  ⟨((dissect_security_socket_bind_connect_summary
      (event_of [("tracee.sockaddr.sa_family", .str "AF_INET"),
        ("tracee.sockaddr.sin_addr", .str "1.2.3.4"),
        ("tracee.sockaddr.sin_port", .str "80")])
      (packet_with "prior") "Bind").2.2.1 (by decide) "1.2.3.4" "80"
        (by decide) (by decide)).1,
   ((dissect_security_socket_bind_connect_summary
      (event_of [("tracee.sockaddr.sa_family", .str "AF_INET6"),
        ("tracee.sockaddr.sin_addr", .str "1.2.3.4"),
        ("tracee.sockaddr.sin_port", .str "80")])
      (packet_with "prior") "Connect").2.2.2 (by decide)).2 (Or.inl (by decide))⟩

/-- C9: stdio-over-socket rule. With `File_descriptor` (an integer),
`IP_address` and `Port` present, a descriptor 0, 1 or 2 sets the column to
`stream ++ " forwarded to " ++ IP_address ++ " port " ++ Port` with `stream`
"STDIN", "STDOUT", "STDERR" respectively. -/
theorem dissect_stdio_over_socket_summary (fc : field_catalog) (pinfo : packet_info)
    (fd : Int) (addr port : String)
    (hf : wanted_field_get_int fc "tracee.args.File_descriptor" = some fd)
    (ha : wanted_field_get_str fc "tracee.args.IP_address" = some addr)
    (hp : wanted_field_get_str fc "tracee.args.Port" = some port) :
    (fd = 0 →
      (dissect_stdio_over_socket fc pinfo).2.col_info
        = "STDIN" ++ " forwarded to " ++ addr ++ " port " ++ port ∧
      (dissect_stdio_over_socket fc pinfo).2.writes = pinfo.writes ++
        [col_write.set ("STDIN" ++ " forwarded to " ++ addr ++ " port " ++ port)]) ∧
    (fd = 1 →
      (dissect_stdio_over_socket fc pinfo).2.col_info
        = "STDOUT" ++ " forwarded to " ++ addr ++ " port " ++ port ∧
      (dissect_stdio_over_socket fc pinfo).2.writes = pinfo.writes ++
        [col_write.set ("STDOUT" ++ " forwarded to " ++ addr ++ " port " ++ port)]) ∧
    (fd = 2 →
      (dissect_stdio_over_socket fc pinfo).2.col_info
        = "STDERR" ++ " forwarded to " ++ addr ++ " port " ++ port ∧
      (dissect_stdio_over_socket fc pinfo).2.writes = pinfo.writes ++
        [col_write.set ("STDERR" ++ " forwarded to " ++ addr ++ " port " ++ port)]) := by
  refine ⟨fun h => ?_, fun h => ?_, fun h => ?_⟩ <;> subst h <;>
    unfold dissect_stdio_over_socket <;>
    simp [hf, ha, hp, col_add_fstr, col_add_str, format_forwarded]

/-- Witness for C9: 1, "5.6.7.8", "443" gives "STDOUT forwarded to 5.6.7.8 port 443". -/
theorem dissect_stdio_over_socket_summary_witness :
    (dissect_stdio_over_socket
        (event_of [("tracee.args.File_descriptor", .int 1),
          ("tracee.args.IP_address", .str "5.6.7.8"),
          ("tracee.args.Port", .str "443")])
        (packet_with "prior")).2.col_info = "STDOUT forwarded to 5.6.7.8 port 443" :=
  ((dissect_stdio_over_socket_summary
      (event_of [("tracee.args.File_descriptor", .int 1),
        ("tracee.args.IP_address", .str "5.6.7.8"),
        ("tracee.args.Port", .str "443")])
      (packet_with "prior") 1 "5.6.7.8" "443" (by decide) (by decide) (by decide)).2.1 rfl).1

/-- Counterexample to C10 as stated: with `pathname` "/tmp/x" present and the
column holding "prior", the column after the fileless-execution rule is not
"Running from /tmp/x": the rule appends, so the prior text stays in front. -/
theorem dissect_fileless_execution_keeps_prior :
    wanted_field_get_str (event_of [("tracee.args.pathname", .str "/tmp/x")])
        "tracee.args.pathname" = some "/tmp/x" ∧
    (dissect_fileless_execution (event_of [("tracee.args.pathname", .str "/tmp/x")])
        (packet_with "prior")).2.col_info = "priorRunning from /tmp/x" ∧
    (dissect_fileless_execution (event_of [("tracee.args.pathname", .str "/tmp/x")])
        (packet_with "prior")).2.col_info ≠ "Running from " ++ "/tmp/x" := by
  decide

/-- C10, amended: fileless-execution rule. With `pathname` present and for
every prior column text, the rule makes one write, an append of
`"Running from " ++ pathname`, so the column afterwards is the prior text
followed by `"Running from " ++ pathname`; it is exactly
`"Running from " ++ pathname` when the column was empty before. -/
theorem dissect_fileless_execution_summary (fc : field_catalog) (pinfo : packet_info)
    (pathname : String)
    (hp : wanted_field_get_str fc "tracee.args.pathname" = some pathname) :
    (dissect_fileless_execution fc pinfo).2.col_info
      = pinfo.col_info ++ ("Running from " ++ pathname) ∧
    (dissect_fileless_execution fc pinfo).2.writes
      = pinfo.writes ++ [col_write.append ("Running from " ++ pathname)] ∧
    (pinfo.col_info = "" →
      (dissect_fileless_execution fc pinfo).2.col_info = "Running from " ++ pathname) := by
  unfold dissect_fileless_execution
  simp only [hp, col_append_fstr, col_append_str, format_running_from, true_and]
  intro h
  rw [h]
  exact String.ext rfl

/-- Witness for the amended C10: pathname "/tmp/x" on an empty column gives
"Running from /tmp/x", and on a column holding "prior" gives
"priorRunning from /tmp/x". -/
theorem dissect_fileless_execution_summary_witness :
    (dissect_fileless_execution (event_of [("tracee.args.pathname", .str "/tmp/x")])
        (packet_with "")).2.col_info = "Running from /tmp/x" ∧
    (dissect_fileless_execution (event_of [("tracee.args.pathname", .str "/tmp/x")])
        (packet_with "prior")).2.col_info = "priorRunning from /tmp/x" :=
  ⟨(dissect_fileless_execution_summary (event_of [("tracee.args.pathname", .str "/tmp/x")])
      (packet_with "") "/tmp/x" (by decide)).2.2 rfl,
   (dissect_fileless_execution_summary (event_of [("tracee.args.pathname", .str "/tmp/x")])
      (packet_with "prior") "/tmp/x" (by decide)).1⟩

/-- C11: dynamic-code-loading rule. With `alert` present and for every prior
column text `s`, the rule makes one write, an append of `alert`, and the column
afterwards is `s ++ alert`: the prior text is kept in front. With `alert`
absent the packet, column text included, is as it was. -/
theorem dissect_dynamic_code_loading_summary (fc : field_catalog) (pinfo : packet_info) :
    (∀ alert, wanted_field_get_str fc "tracee.args.alert" = some alert →
      (dissect_dynamic_code_loading fc pinfo).2.col_info = pinfo.col_info ++ alert ∧
      pinfo.col_info.data <+: (dissect_dynamic_code_loading fc pinfo).2.col_info.data ∧
      (dissect_dynamic_code_loading fc pinfo).2.writes
        = pinfo.writes ++ [col_write.append alert]) ∧
    (wanted_field_get_str fc "tracee.args.alert" = none →
      dissect_dynamic_code_loading fc pinfo = (0, pinfo)) := by
  constructor
  · intro alert h
    unfold dissect_dynamic_code_loading
    simp only [h, col_append_str, String.data_append, List.prefix_append, and_self]
  · intro h
    unfold dissect_dynamic_code_loading
    simp only [h]

/-- Witness for C11: alert "Code loaded" on a column holding "prior: " gives
"prior: Code loaded"; without an alert the column keeps "prior: ". -/
theorem dissect_dynamic_code_loading_summary_witness :
    (dissect_dynamic_code_loading (event_of [("tracee.args.alert", .str "Code loaded")])
        (packet_with "prior: ")).2.col_info = "prior: Code loaded" ∧
    dissect_dynamic_code_loading (event_of [("tracee.args.pathname", .str "/x")])
        (packet_with "prior: ") = (0, packet_with "prior: ") :=
  ⟨((dissect_dynamic_code_loading_summary
      (event_of [("tracee.args.alert", .str "Code loaded")]) (packet_with "prior: ")).1
        "Code loaded" (by decide)).1,
   (dissect_dynamic_code_loading_summary
      (event_of [("tracee.args.pathname", .str "/x")]) (packet_with "prior: ")).2 (by decide)⟩

/-- C12: fail-soft atomicity. For each of the seven rules and every event, if
a field required by the branch the rule takes is absent, the rule returns with
the packet as it was: no write, column text unchanged. Process-exec: `pathname`
or `command_line`; legacy HTTP: `method`, `protocol` or `uri_path`; unified
HTTP: `direction`, or `protocol`, or `method`/`uri_path` for a request, or
`status` for a response (whether or not a content type is present); socket:
`sa_family`, or a member of the pair the family selects; dynamic-code-loading:
`alert`; fileless: `pathname`; stdio: `File_descriptor`, `IP_address` or `Port`. -/
theorem dissect_missing_field_no_write (fc : field_catalog) (pinfo : packet_info) :
    (wanted_field_get_str fc "tracee.args.pathname" = none ∨
        wanted_field_get_str fc "tracee.args.command_line" = none →
      dissect_sched_process_exec fc pinfo = (0, pinfo)) ∧
    (wanted_field_get_str fc "tracee.proto_http_request.method" = none ∨
        wanted_field_get_str fc "tracee.proto_http_request.protocol" = none ∨
        wanted_field_get_str fc "tracee.proto_http_request.uri_path" = none →
      dissect_net_packet_http_request fc pinfo = (0, pinfo)) ∧
    (wanted_field_get_str fc "tracee.proto_http.direction" = none →
      dissect_net_packet_http fc pinfo = (0, pinfo)) ∧
    (wanted_field_get_str fc "tracee.proto_http.protocol" = none →
      dissect_net_packet_http fc pinfo = (0, pinfo)) ∧
    (wanted_field_get_str fc "tracee.proto_http.direction" = some "request" →
      wanted_field_get_str fc "tracee.proto_http.method" = none ∨
        wanted_field_get_str fc "tracee.proto_http.uri_path" = none →
      dissect_net_packet_http fc pinfo = (0, pinfo)) ∧
    (wanted_field_get_str fc "tracee.proto_http.direction" = some "response" →
      wanted_field_get_str fc "tracee.proto_http.status" = none →
      dissect_net_packet_http fc pinfo = (0, pinfo)) ∧
    (∀ verb, wanted_field_get_str fc "tracee.sockaddr.sa_family" = none →
      dissect_security_socket_bind_connect fc pinfo verb = (0, pinfo)) ∧
    (∀ verb, wanted_field_get_str fc "tracee.sockaddr.sa_family" = some "AF_INET" →
      wanted_field_get_str fc "tracee.sockaddr.sin_addr" = none ∨
        wanted_field_get_str fc "tracee.sockaddr.sin_port" = none →
      dissect_security_socket_bind_connect fc pinfo verb = (0, pinfo)) ∧
    (∀ verb, wanted_field_get_str fc "tracee.sockaddr.sa_family" = some "AF_INET6" →
      wanted_field_get_str fc "tracee.sockaddr.sin6_addr" = none ∨
        wanted_field_get_str fc "tracee.sockaddr.sin6_port" = none →
      dissect_security_socket_bind_connect fc pinfo verb = (0, pinfo)) ∧
    (wanted_field_get_str fc "tracee.args.alert" = none →
      dissect_dynamic_code_loading fc pinfo = (0, pinfo)) ∧
    (wanted_field_get_str fc "tracee.args.pathname" = none →
      dissect_fileless_execution fc pinfo = (0, pinfo)) ∧
    (wanted_field_get_int fc "tracee.args.File_descriptor" = none ∨
        wanted_field_get_str fc "tracee.args.IP_address" = none ∨
        wanted_field_get_str fc "tracee.args.Port" = none →
      dissect_stdio_over_socket fc pinfo = (0, pinfo)) := by
  have hreq : strcmp "request" "request" = 0 := (strcmp_eq_zero_iff _ _).mpr rfl
  have hresp0 : ¬ strcmp "response" "request" = 0 := by
    rw [strcmp_eq_zero_iff]
    decide
  have hresp : strcmp "response" "response" = 0 := (strcmp_eq_zero_iff _ _).mpr rfl
  have h4 : strcmp "AF_INET" "AF_INET" = 0 := (strcmp_eq_zero_iff _ _).mpr rfl
  have h64 : ¬ strcmp "AF_INET6" "AF_INET" = 0 := by
    rw [strcmp_eq_zero_iff]
    decide
  have h6 : strcmp "AF_INET6" "AF_INET6" = 0 := (strcmp_eq_zero_iff _ _).mpr rfl
  refine ⟨?_, ?_, ?_, ?_, ?_, ?_, ?_, ?_, ?_, ?_, ?_, ?_⟩
  · intro h
    unfold dissect_sched_process_exec
    rcases h with h | h <;> (simp only [h]; repeat (first | rfl | split | simp_all))
  · intro h
    unfold dissect_net_packet_http_request
    rcases h with h | h | h <;> (simp only [h]; repeat (first | rfl | split | simp_all))
  · intro h
    unfold dissect_net_packet_http
    simp only [h]
  · intro h
    unfold dissect_net_packet_http
    simp only [h]
    repeat (first | rfl | split | simp_all)
  · intro hd h
    unfold dissect_net_packet_http
    simp only [hd, hreq, if_true]
    rcases h with h | h <;> (simp only [h]; repeat (first | rfl | split | simp_all))
  · intro hd h
    unfold dissect_net_packet_http
    simp only [hd, hresp0, hresp, if_true, if_false, h, Bool.false_eq_true]
    repeat (first | rfl | split | simp_all)
  · intro verb h
    unfold dissect_security_socket_bind_connect
    simp only [h]
  · intro verb hf h
    unfold dissect_security_socket_bind_connect
    simp only [hf, h4, if_true]
    rcases h with h | h <;> (simp only [h]; repeat (first | rfl | split | simp_all))
  · intro verb hf h
    unfold dissect_security_socket_bind_connect
    simp only [hf, h64, h6, if_true, if_false]
    rcases h with h | h <;> (simp only [h]; repeat (first | rfl | split | simp_all))
  · intro h
    unfold dissect_dynamic_code_loading
    simp only [h]
  · intro h
    unfold dissect_fileless_execution
    simp only [h]
  · intro h
    unfold dissect_stdio_over_socket
    rcases h with h | h | h <;> (simp only [h]; repeat (first | rfl | split | simp_all))

/-- Witness for C12: a unified-HTTP request with method, uri_path and a
content type but no `protocol`, and a response with a content type but no
`status`, leave the column holding "prior" with no write made. -/
theorem dissect_missing_field_no_write_witness :
    dissect_net_packet_http
        (event_of [("tracee.proto_http.direction", .str "request"),
          ("tracee.proto_http.method", .str "GET"),
          ("tracee.proto_http.uri_path", .str "/x"),
          ("http.content_type", .str "text/html; charset=utf-8")])
        (packet_with "prior") = (0, packet_with "prior") ∧
    dissect_net_packet_http
        (event_of [("tracee.proto_http.direction", .str "response"),
          ("tracee.proto_http.protocol", .str "HTTP/1.1"),
          ("http.content_type", .str "text/html")])
        (packet_with "prior") = (0, packet_with "prior") :=
  ⟨(dissect_missing_field_no_write
      (event_of [("tracee.proto_http.direction", .str "request"),
        ("tracee.proto_http.method", .str "GET"),
        ("tracee.proto_http.uri_path", .str "/x"),
        ("http.content_type", .str "text/html; charset=utf-8")])
      (packet_with "prior")).2.2.2.1 (by decide),
   (dissect_missing_field_no_write
      (event_of [("tracee.proto_http.direction", .str "response"),
        ("tracee.proto_http.protocol", .str "HTTP/1.1"),
        ("http.content_type", .str "text/html")])
      (packet_with "prior")).2.2.2.2.2.1 (by decide) (by decide)⟩

/-- C13: unrecognised sub-variants are silent no-ops. For every event, whatever
its other fields hold: the unified HTTP rule with a direction other than
"request" and "response", the socket rule (any verb) with an `sa_family` other
than "AF_INET" and "AF_INET6", and the stdio-over-socket rule with a
`File_descriptor` other than 0, 1 and 2 (negative values included) each return
with the packet as it was: no write, column text unchanged. -/
theorem dissect_unrecognised_variant_no_write (fc : field_catalog) (pinfo : packet_info) :
    (∀ direction, wanted_field_get_str fc "tracee.proto_http.direction" = some direction →
      direction ≠ "request" → direction ≠ "response" →
      dissect_net_packet_http fc pinfo = (0, pinfo)) ∧
    (∀ verb family, wanted_field_get_str fc "tracee.sockaddr.sa_family" = some family →
      family ≠ "AF_INET" → family ≠ "AF_INET6" →
      dissect_security_socket_bind_connect fc pinfo verb = (0, pinfo)) ∧
    (∀ fd, wanted_field_get_int fc "tracee.args.File_descriptor" = some fd →
      fd ≠ 0 → fd ≠ 1 → fd ≠ 2 →
      dissect_stdio_over_socket fc pinfo = (0, pinfo)) := by
  refine ⟨?_, ?_, ?_⟩
  · intro direction hd h1 h2
    unfold dissect_net_packet_http
    simp only [hd, strcmp_eq_zero_iff, h1, h2, if_false]
  · intro verb family hf h1 h2
    unfold dissect_security_socket_bind_connect
    simp only [hf, strcmp_eq_zero_iff, h1, h2, if_false]
  · intro fd hf h0 h1 h2
    unfold dissect_stdio_over_socket
    cases ha : wanted_field_get_str fc "tracee.args.IP_address" <;>
      cases hp : wanted_field_get_str fc "tracee.args.Port" <;>
      simp only [hf, h0, h1, h2, if_false]

/-- Witness for C13: direction "foo", family "AF_UNIX" under the bind rule, and
descriptors 5 and -1, all other fields present, leave the column holding
"prior" with no write made. -/
theorem dissect_unrecognised_variant_no_write_witness :
    dissect_net_packet_http
        (event_of [("tracee.proto_http.direction", .str "foo"),
          ("tracee.proto_http.method", .str "GET"),
          ("tracee.proto_http.uri_path", .str "/x"),
          ("tracee.proto_http.protocol", .str "HTTP/1.1"),
          ("tracee.proto_http.status", .str "200 OK"),
          ("http.content_type", .str "text/html")])
        (packet_with "prior") = (0, packet_with "prior") ∧
    dissect_security_socket_bind_connect
        (event_of [("tracee.sockaddr.sa_family", .str "AF_UNIX"),
          ("tracee.sockaddr.sin_addr", .str "1.2.3.4"),
          ("tracee.sockaddr.sin_port", .str "80"),
          ("tracee.sockaddr.sin6_addr", .str "::1"),
          ("tracee.sockaddr.sin6_port", .str "80")])
        (packet_with "prior") "Bind" = (0, packet_with "prior") ∧
    dissect_stdio_over_socket
        (event_of [("tracee.args.File_descriptor", .int 5),
          ("tracee.args.IP_address", .str "5.6.7.8"),
          ("tracee.args.Port", .str "443")])
        (packet_with "prior") = (0, packet_with "prior") ∧
    dissect_stdio_over_socket
        (event_of [("tracee.args.File_descriptor", .int (-1)),
          ("tracee.args.IP_address", .str "5.6.7.8"),
          ("tracee.args.Port", .str "443")])
        (packet_with "prior") = (0, packet_with "prior") :=
  ⟨(dissect_unrecognised_variant_no_write
      (event_of [("tracee.proto_http.direction", .str "foo"),
        ("tracee.proto_http.method", .str "GET"),
        ("tracee.proto_http.uri_path", .str "/x"),
        ("tracee.proto_http.protocol", .str "HTTP/1.1"),
        ("tracee.proto_http.status", .str "200 OK"),
        ("http.content_type", .str "text/html")])
      (packet_with "prior")).1 "foo" (by decide) (by decide) (by decide),
   (dissect_unrecognised_variant_no_write
      (event_of [("tracee.sockaddr.sa_family", .str "AF_UNIX"),
        ("tracee.sockaddr.sin_addr", .str "1.2.3.4"),
        ("tracee.sockaddr.sin_port", .str "80"),
        ("tracee.sockaddr.sin6_addr", .str "::1"),
        ("tracee.sockaddr.sin6_port", .str "80")])
      (packet_with "prior")).2.1 "Bind" "AF_UNIX" (by decide) (by decide) (by decide),
   (dissect_unrecognised_variant_no_write
      (event_of [("tracee.args.File_descriptor", .int 5),
        ("tracee.args.IP_address", .str "5.6.7.8"),
        ("tracee.args.Port", .str "443")])
      (packet_with "prior")).2.2 5 (by decide) (by decide) (by decide) (by decide),
   (dissect_unrecognised_variant_no_write
      (event_of [("tracee.args.File_descriptor", .int (-1)),
        ("tracee.args.IP_address", .str "5.6.7.8"),
        ("tracee.args.Port", .str "443")])
      (packet_with "prior")).2.2 (-1) (by decide) (by decide) (by decide) (by decide)⟩

/-! ## Content-type normalisation -/

theorem not_mem_takeWhile_ne (c : Char) (l : List Char) :
    c ∉ l.takeWhile (fun x => decide (x ≠ c)) := by
  intro h
  have := List.mem_takeWhile_imp h
  simp at this

theorem isPrefix_takeWhile_of_not_mem (c : Char) (p l : List Char) (hp : p <+: l)
    (hc : c ∉ p) : p <+: l.takeWhile (fun x => decide (x ≠ c)) := by
  induction p generalizing l with
  | nil => exact List.nil_prefix
  | cons x rest ih =>
    cases l with
    | nil => simp at hp
    | cons y l2 =>
      rw [List.cons_prefix_cons] at hp
      obtain ⟨hxy, hrest⟩ := hp
      subst hxy
      have hx : x ≠ c := fun e => hc (e ▸ List.mem_cons_self _ _)
      have hr : c ∉ rest := fun e => hc (List.mem_cons_of_mem _ e)
      simp only [List.takeWhile_cons, ne_eq, hx, not_false_eq_true, decide_True, if_true,
        List.cons_prefix_cons, true_and]
      exact ih l2 hrest hr

theorem takeWhile_ne_eq_self (c : Char) (l : List Char) (h : c ∉ l) :
    l.takeWhile (fun x => decide (x ≠ c)) = l := by
  rw [List.takeWhile_eq_self_iff]
  intro x hx
  simp only [ne_eq, decide_not, Bool.not_eq_true', decide_eq_false_iff_not]
  intro e
  exact h (e ▸ hx)

/-- C16: content-type normalisation in the unified HTTP rule. For every
content type the rule's `content_type_short` is a prefix of it that holds no
`;`, and it is the longest such prefix: every prefix of the content type
without a `;` is a prefix of it, so no longer than it. It is the content type
itself when that holds no `;`, and the empty string when the content type
starts with `;`. Normalising what was normalised changes nothing. An absent
content type stays absent. -/
theorem content_type_short_longest (content_type : String) :
    content_type_short none = none ∧
    ∃ short, content_type_short (some content_type) = some short ∧
      short.data <+: content_type.data ∧
      ';' ∉ short.data ∧
      (∀ p : List Char, p <+: content_type.data → ';' ∉ p →
        p <+: short.data ∧ p.length ≤ short.length) ∧
      (';' ∉ content_type.data → short = content_type) ∧
      (content_type.data.head? = some ';' → short = "") ∧
      content_type_short (some short) = some short := by
  refine ⟨rfl, before_semicolon content_type, content_type_short_some content_type,
    ?_, ?_, ?_, ?_, ?_, ?_⟩
  · exact List.takeWhile_prefix _
  · exact not_mem_takeWhile_ne ';' content_type.data
  · intro p hp hc
    have h := isPrefix_takeWhile_of_not_mem ';' p content_type.data hp hc
    exact ⟨h, h.length_le⟩
  · intro h
    apply String.ext
    exact takeWhile_ne_eq_self ';' content_type.data h
  · intro h
    apply String.ext
    cases hd : content_type.data with
    | nil => simp [hd] at h
    | cons x rest =>
      simp only [hd, List.head?_cons, Option.some.injEq] at h
      simp [before_semicolon, hd, h]
  · rw [content_type_short_some]
    congr 1
    apply String.ext
    exact takeWhile_ne_eq_self ';' _ (not_mem_takeWhile_ne ';' content_type.data)

/-- C17: process-exec rule. With `pathname` and `command_line` both present,
an empty `pathname` and a `pathname` longer than `command_line` included, the
column text the rule leaves starts with `pathname` and ends with `command_line`. -/
theorem dissect_sched_process_exec_affixes (fc : field_catalog) (pinfo : packet_info)
    (pathname cmdline : String)
    (hp : wanted_field_get_str fc "tracee.args.pathname" = some pathname)
    (hc : wanted_field_get_str fc "tracee.args.command_line" = some cmdline) :
    pathname.data <+: (dissect_sched_process_exec fc pinfo).2.col_info.data ∧
    cmdline.data <:+ (dissect_sched_process_exec fc pinfo).2.col_info.data ∧
    (dissect_sched_process_exec fc pinfo).2.writes
      = pinfo.writes ++ [col_write.set (dissect_sched_process_exec fc pinfo).2.col_info] := by
  have hcmp : strncmp pathname cmdline (strlen pathname) = 0 ↔ pathname.data <+: cmdline.data :=
    strncmp_loop_length_eq_zero_iff pathname.data cmdline.data
  by_cases h : pathname.data <+: cmdline.data
  · have e : dissect_sched_process_exec fc pinfo = (0, col_add_str pinfo cmdline) := by
      unfold dissect_sched_process_exec
      simp only [hp, hc, hcmp.mpr h, if_true]
    rw [e]
    exact ⟨h, List.suffix_refl _, rfl⟩
  · have h0 : ¬ strncmp pathname cmdline (strlen pathname) = 0 := fun e => h (hcmp.mp e)
    have e : dissect_sched_process_exec fc pinfo
        = (0, col_add_str pinfo (pathname ++ ": " ++ cmdline)) := by
      unfold dissect_sched_process_exec
      simp only [hp, hc, h0, if_false, col_add_fstr, format_s_colon_s]
    rw [e]
    refine ⟨?_, ?_, rfl⟩
    · simp only [col_add_str, String.data_append, List.append_assoc]
      exact List.prefix_append _ _
    · simp only [col_add_str, String.data_append]
      exact List.suffix_append _ _

/-- Witness for C17: an empty pathname with command line "ls -la" gives
"ls -la"; the pathname "/usr/bin/python3", longer than the command line "py",
gives "/usr/bin/python3: py". -/
theorem dissect_sched_process_exec_affixes_witness :
    (dissect_sched_process_exec
        (event_of [("tracee.args.pathname", .str ""),
          ("tracee.args.command_line", .str "ls -la")])
        (packet_with "prior")).2.col_info = "ls -la" ∧
    (dissect_sched_process_exec
        (event_of [("tracee.args.pathname", .str "/usr/bin/python3"),
          ("tracee.args.command_line", .str "py")])
        (packet_with "prior")).2.col_info = "/usr/bin/python3: py" ∧
    "/usr/bin/python3".data <+: (dissect_sched_process_exec
        (event_of [("tracee.args.pathname", .str "/usr/bin/python3"),
          ("tracee.args.command_line", .str "py")])
        (packet_with "prior")).2.col_info.data ∧
    "ls -la".data <:+ (dissect_sched_process_exec
        (event_of [("tracee.args.pathname", .str ""),
          ("tracee.args.command_line", .str "ls -la")])
        (packet_with "prior")).2.col_info.data :=
  ⟨by decide, by decide,
   (dissect_sched_process_exec_affixes
      (event_of [("tracee.args.pathname", .str "/usr/bin/python3"),
        ("tracee.args.command_line", .str "py")])
      (packet_with "prior") "/usr/bin/python3" "py" (by decide) (by decide)).1,
   (dissect_sched_process_exec_affixes
      (event_of [("tracee.args.pathname", .str ""),
        ("tracee.args.command_line", .str "ls -la")])
      (packet_with "prior") "" "ls -la" (by decide) (by decide)).2.1⟩

/-! ## The write-shape invariant -/

theorem write_shape_nil : write_shape [] := by
  refine ⟨by simp, by simp, ?_⟩
  intro i j a s _ hi
  simp at hi

theorem write_shape_set (t : String) : write_shape [col_write.set t] := by
  refine ⟨by simp, by simp [is_set], ?_⟩
  intro i j a s hij hi
  rcases i with _ | i <;> simp at hi

theorem write_shape_append (t : String) : write_shape [col_write.append t] := by
  refine ⟨by simp, by simp [is_set], ?_⟩
  intro i j a s hij hi
  rcases j with _ | j
  · omega
  · simp

theorem write_shape_set_append (t u : String) :
    write_shape [col_write.set t, col_write.append u] := by
  refine ⟨by simp, by simp [is_set], ?_⟩
  intro i j a s hij hi
  rcases j with _ | _ | j
  · omega
  · simp
  · simp

theorem shaped_writes_refl (pinfo : packet_info) : shaped_writes pinfo pinfo :=
  ⟨[], by simp, write_shape_nil⟩

theorem shaped_writes_add (pinfo : packet_info) (fmt : String) (args : List String) :
    shaped_writes pinfo (col_add_fstr pinfo fmt args) :=
  ⟨[col_write.set (format fmt args)], rfl, write_shape_set _⟩

theorem shaped_writes_add_str (pinfo : packet_info) (str : String) :
    shaped_writes pinfo (col_add_str pinfo str) :=
  ⟨[col_write.set str], rfl, write_shape_set _⟩

theorem shaped_writes_append (pinfo : packet_info) (fmt : String) (args : List String) :
    shaped_writes pinfo (col_append_fstr pinfo fmt args) :=
  ⟨[col_write.append (format fmt args)], rfl, write_shape_append _⟩

theorem shaped_writes_append_str (pinfo : packet_info) (str : String) :
    shaped_writes pinfo (col_append_str pinfo str) :=
  ⟨[col_write.append str], rfl, write_shape_append _⟩

theorem shaped_writes_add_append (pinfo : packet_info) (fmt1 fmt2 : String)
    (args1 args2 : List String) :
    shaped_writes pinfo (col_append_fstr (col_add_fstr pinfo fmt1 args1) fmt2 args2) :=
  ⟨[col_write.set (format fmt1 args1), col_write.append (format fmt2 args2)],
    by simp [col_append_fstr, col_append_str, col_add_fstr, col_add_str],
    write_shape_set_append _ _⟩

theorem dissect_sched_process_exec_shaped (fc : field_catalog) (pinfo : packet_info) :
    shaped_writes pinfo (dissect_sched_process_exec fc pinfo).2 := by
  unfold dissect_sched_process_exec
  repeat (first
    | exact shaped_writes_refl _
    | exact shaped_writes_add _ _ _
    | exact shaped_writes_add_str _ _
    | split
    | dsimp only)

theorem dissect_net_packet_http_request_shaped (fc : field_catalog) (pinfo : packet_info) :
    shaped_writes pinfo (dissect_net_packet_http_request fc pinfo).2 := by
  unfold dissect_net_packet_http_request
  repeat (first
    | exact shaped_writes_refl _
    | exact shaped_writes_add _ _ _
    | exact shaped_writes_add_append _ _ _ _ _
    | split
    | dsimp only)

theorem dissect_net_packet_http_shaped (fc : field_catalog) (pinfo : packet_info) :
    shaped_writes pinfo (dissect_net_packet_http fc pinfo).2 := by
  unfold dissect_net_packet_http
  repeat (first
    | exact shaped_writes_refl _
    | exact shaped_writes_add _ _ _
    | exact shaped_writes_add_append _ _ _ _ _
    | split
    | dsimp only)

theorem dissect_security_socket_bind_connect_shaped (fc : field_catalog) (pinfo : packet_info)
    (verb : String) :
    shaped_writes pinfo (dissect_security_socket_bind_connect fc pinfo verb).2 := by
  unfold dissect_security_socket_bind_connect
  repeat (first
    | exact shaped_writes_refl _
    | exact shaped_writes_add _ _ _
    | split
    | dsimp only)

theorem dissect_dynamic_code_loading_shaped (fc : field_catalog) (pinfo : packet_info) :
    shaped_writes pinfo (dissect_dynamic_code_loading fc pinfo).2 := by
  unfold dissect_dynamic_code_loading
  repeat (first
    | exact shaped_writes_refl _
    | exact shaped_writes_append_str _ _
    | split
    | dsimp only)

theorem dissect_fileless_execution_shaped (fc : field_catalog) (pinfo : packet_info) :
    shaped_writes pinfo (dissect_fileless_execution fc pinfo).2 := by
  unfold dissect_fileless_execution
  repeat (first
    | exact shaped_writes_refl _
    | exact shaped_writes_append _ _ _
    | split
    | dsimp only)

theorem dissect_stdio_over_socket_shaped (fc : field_catalog) (pinfo : packet_info) :
    shaped_writes pinfo (dissect_stdio_over_socket fc pinfo).2 := by
  unfold dissect_stdio_over_socket
  repeat (first
    | exact shaped_writes_refl _
    | exact shaped_writes_add _ _ _
    | split
    | dsimp only)

/-- C18: write-shape invariant. For every event and every packet, the writes
one invocation of a rule adds to the column have the write shape: at most two
writes, at most one set, and no append followed by a set. This holds for each
of the seven rules (the socket rule with any verb), for every rule held by the
registry, and for `postdissect_event`, so one call of the dispatcher makes at
most two writes. -/
theorem dissector_write_shape (fc : field_catalog) (pinfo : packet_info) :
    shaped_writes pinfo (dissect_sched_process_exec fc pinfo).2 ∧
    shaped_writes pinfo (dissect_net_packet_http_request fc pinfo).2 ∧
    shaped_writes pinfo (dissect_net_packet_http fc pinfo).2 ∧
    (∀ verb, shaped_writes pinfo (dissect_security_socket_bind_connect fc pinfo verb).2) ∧
    shaped_writes pinfo (dissect_dynamic_code_loading fc pinfo).2 ∧
    shaped_writes pinfo (dissect_fileless_execution fc pinfo).2 ∧
    shaped_writes pinfo (dissect_stdio_over_socket fc pinfo).2 ∧
    (∀ entry ∈ event_postdissectors, shaped_writes pinfo (entry.2 fc pinfo).2) ∧
    shaped_writes pinfo (postdissect_event event_postdissectors fc pinfo).2 ∧
    (postdissect_event event_postdissectors fc pinfo).2.writes.length
      ≤ pinfo.writes.length + 2 := by
  have hentry : ∀ entry ∈ event_postdissectors, shaped_writes pinfo (entry.2 fc pinfo).2 := by
    intro entry he
    rw [event_postdissectors_entries] at he
    simp only [List.mem_cons, List.mem_singleton, List.not_mem_nil, or_false] at he
    rcases he with he | he | he | he | he | he | he | he <;> subst he
    · exact dissect_sched_process_exec_shaped fc pinfo
    · exact dissect_net_packet_http_request_shaped fc pinfo
    · exact dissect_net_packet_http_shaped fc pinfo
    · exact dissect_security_socket_bind_connect_shaped fc pinfo "Bind"
    · exact dissect_security_socket_bind_connect_shaped fc pinfo "Connect"
    · exact dissect_dynamic_code_loading_shaped fc pinfo
    · exact dissect_fileless_execution_shaped fc pinfo
    · exact dissect_stdio_over_socket_shaped fc pinfo
  have hpost : shaped_writes pinfo (postdissect_event event_postdissectors fc pinfo).2 := by
    unfold postdissect_event
    cases wanted_field_get_str fc "tracee.eventName" with
    | none => exact shaped_writes_refl pinfo
    | some name =>
      simp only [wmem_map_lookup_event_postdissectors]
      split_ifs
      · exact dissect_sched_process_exec_shaped fc pinfo
      · exact dissect_net_packet_http_request_shaped fc pinfo
      · exact dissect_net_packet_http_shaped fc pinfo
      · exact dissect_security_socket_bind_connect_shaped fc pinfo "Bind"
      · exact dissect_security_socket_bind_connect_shaped fc pinfo "Connect"
      · exact dissect_dynamic_code_loading_shaped fc pinfo
      · exact dissect_fileless_execution_shaped fc pinfo
      · exact dissect_stdio_over_socket_shaped fc pinfo
      · exact shaped_writes_refl pinfo
  refine ⟨dissect_sched_process_exec_shaped fc pinfo,
    dissect_net_packet_http_request_shaped fc pinfo, dissect_net_packet_http_shaped fc pinfo,
    dissect_security_socket_bind_connect_shaped fc pinfo,
    dissect_dynamic_code_loading_shaped fc pinfo, dissect_fileless_execution_shaped fc pinfo,
    dissect_stdio_over_socket_shaped fc pinfo, hentry, hpost, ?_⟩
  obtain ⟨ops, hops, hlen, _⟩ := hpost
  rw [hops, List.length_append]
  omega

/-! ## Declared and looked-up field names -/

theorem subset_register_wanted_field (wanted : List String) (name x : String)
    (hx : x ∈ wanted) : x ∈ register_wanted_field wanted name := by
  unfold register_wanted_field
  split
  · exact hx
  · exact List.mem_append_left _ hx

theorem mem_register_wanted_field (wanted : List String) (name : String) :
    name ∈ register_wanted_field wanted name := by
  unfold register_wanted_field
  split
  · assumption
  · simp

theorem foldl_register_wanted_field_mono (names wanted : List String) (x : String)
    (hx : x ∈ wanted) : x ∈ names.foldl register_wanted_field wanted := by
  induction names generalizing wanted with
  | nil => exact hx
  | cons n rest ih => exact ih _ (subset_register_wanted_field wanted n x hx)

theorem mem_foldl_register_wanted_field (names wanted : List String) (x : String)
    (hx : x ∈ names) : x ∈ names.foldl register_wanted_field wanted := by
  induction names generalizing wanted with
  | nil => simp at hx
  | cons n rest ih =>
    rcases List.mem_cons.mp hx with h | h
    · subst h
      exact foldl_register_wanted_field_mono rest _ x (mem_register_wanted_field wanted x)
    · exact ih _ h

theorem foldl_register_wanted_field_nodup (names wanted : List String)
    (h : (wanted ++ names).Nodup) :
    names.foldl register_wanted_field wanted = wanted ++ names := by
  induction names generalizing wanted with
  | nil => simp
  | cons n rest ih =>
    have hn : n ∉ wanted := by
      intro hmem
      rw [List.nodup_append] at h
      exact h.2.2 hmem (List.mem_cons_self _ _)
    have hreg : register_wanted_field wanted n = wanted ++ [n] := by
      unfold register_wanted_field
      rw [if_neg hn]
    rw [List.foldl_cons, hreg, ih]
    · simp
    · simpa using h

theorem foldl_record_calls (names calls : List String) :
    names.foldl (fun calls filter_name => calls ++ [filter_name]) calls = calls ++ names := by
  induction names generalizing calls with
  | nil => simp
  | cons n rest ih => simp [ih]

theorem register_wanted_fields_calls_eq :
    register_wanted_fields_calls = register_wanted_fields_names := by
  simp only [register_wanted_fields_calls, register_wanted_fields_with,
    register_wanted_fields_names, List.nil_append, List.cons_append, List.singleton_append]

theorem register_wanted_fields_eq_foldl (wanted : List String) :
    register_wanted_fields wanted
      = register_wanted_fields_names.foldl register_wanted_field wanted := by
  simp only [register_wanted_fields, register_wanted_fields_with, register_wanted_fields_names,
    List.foldl_cons, List.foldl_nil]

theorem dissect_sched_process_exec_reads (fc fc2 : field_catalog) (pinfo : packet_info)
    (h1 : wanted_field_get_str fc "tracee.args.pathname"
      = wanted_field_get_str fc2 "tracee.args.pathname")
    (h2 : wanted_field_get_str fc "tracee.args.command_line"
      = wanted_field_get_str fc2 "tracee.args.command_line") :
    dissect_sched_process_exec fc pinfo = dissect_sched_process_exec fc2 pinfo := by
  unfold dissect_sched_process_exec
  simp only [h1, h2]

theorem dissect_net_packet_http_request_reads (fc fc2 : field_catalog) (pinfo : packet_info)
    (h1 : wanted_field_get_str fc "tracee.proto_http_request.method"
      = wanted_field_get_str fc2 "tracee.proto_http_request.method")
    (h2 : wanted_field_get_str fc "tracee.proto_http_request.protocol"
      = wanted_field_get_str fc2 "tracee.proto_http_request.protocol")
    (h3 : wanted_field_get_str fc "tracee.proto_http_request.uri_path"
      = wanted_field_get_str fc2 "tracee.proto_http_request.uri_path")
    (h4 : wanted_field_get_str fc "http.content_type"
      = wanted_field_get_str fc2 "http.content_type") :
    dissect_net_packet_http_request fc pinfo = dissect_net_packet_http_request fc2 pinfo := by
  unfold dissect_net_packet_http_request
  simp only [h1, h2, h3, h4]

theorem dissect_net_packet_http_reads (fc fc2 : field_catalog) (pinfo : packet_info)
    (h1 : wanted_field_get_str fc "tracee.proto_http.direction"
      = wanted_field_get_str fc2 "tracee.proto_http.direction")
    (h2 : wanted_field_get_str fc "tracee.proto_http.protocol"
      = wanted_field_get_str fc2 "tracee.proto_http.protocol")
    (h3 : wanted_field_get_str fc "http.content_type"
      = wanted_field_get_str fc2 "http.content_type")
    (h4 : wanted_field_get_str fc "tracee.proto_http.method"
      = wanted_field_get_str fc2 "tracee.proto_http.method")
    (h5 : wanted_field_get_str fc "tracee.proto_http.uri_path"
      = wanted_field_get_str fc2 "tracee.proto_http.uri_path")
    (h6 : wanted_field_get_str fc "tracee.proto_http.status"
      = wanted_field_get_str fc2 "tracee.proto_http.status") :
    dissect_net_packet_http fc pinfo = dissect_net_packet_http fc2 pinfo := by
  unfold dissect_net_packet_http
  simp only [h1, h2, h3, h4, h5, h6]

theorem dissect_security_socket_bind_connect_reads (fc fc2 : field_catalog)
    (pinfo : packet_info) (verb : String)
    (h1 : wanted_field_get_str fc "tracee.sockaddr.sa_family"
      = wanted_field_get_str fc2 "tracee.sockaddr.sa_family")
    (h2 : wanted_field_get_str fc "tracee.sockaddr.sin_addr"
      = wanted_field_get_str fc2 "tracee.sockaddr.sin_addr")
    (h3 : wanted_field_get_str fc "tracee.sockaddr.sin_port"
      = wanted_field_get_str fc2 "tracee.sockaddr.sin_port")
    (h4 : wanted_field_get_str fc "tracee.sockaddr.sin6_addr"
      = wanted_field_get_str fc2 "tracee.sockaddr.sin6_addr")
    (h5 : wanted_field_get_str fc "tracee.sockaddr.sin6_port"
      = wanted_field_get_str fc2 "tracee.sockaddr.sin6_port") :
    dissect_security_socket_bind_connect fc pinfo verb
      = dissect_security_socket_bind_connect fc2 pinfo verb := by
  unfold dissect_security_socket_bind_connect
  simp only [h1, h2, h3, h4, h5]

theorem dissect_dynamic_code_loading_reads (fc fc2 : field_catalog) (pinfo : packet_info)
    (h1 : wanted_field_get_str fc "tracee.args.alert"
      = wanted_field_get_str fc2 "tracee.args.alert") :
    dissect_dynamic_code_loading fc pinfo = dissect_dynamic_code_loading fc2 pinfo := by
  unfold dissect_dynamic_code_loading
  simp only [h1]

theorem dissect_fileless_execution_reads (fc fc2 : field_catalog) (pinfo : packet_info)
    (h1 : wanted_field_get_str fc "tracee.args.pathname"
      = wanted_field_get_str fc2 "tracee.args.pathname") :
    dissect_fileless_execution fc pinfo = dissect_fileless_execution fc2 pinfo := by
  unfold dissect_fileless_execution
  simp only [h1]

theorem dissect_stdio_over_socket_reads (fc fc2 : field_catalog) (pinfo : packet_info)
    (h1 : wanted_field_get_int fc "tracee.args.File_descriptor"
      = wanted_field_get_int fc2 "tracee.args.File_descriptor")
    (h2 : wanted_field_get_str fc "tracee.args.IP_address"
      = wanted_field_get_str fc2 "tracee.args.IP_address")
    (h3 : wanted_field_get_str fc "tracee.args.Port"
      = wanted_field_get_str fc2 "tracee.args.Port") :
    dissect_stdio_over_socket fc pinfo = dissect_stdio_over_socket fc2 pinfo := by
  unfold dissect_stdio_over_socket
  simp only [h1, h2, h3]

/-- C14: every field name that `postdissect_event` or a rule looks up is
declared by `register_wanted_fields`, whatever was declared before it runs, so
after initialisation no lookup of the file is answered "absent" for want of a
declaration; the names listed as looked up are all the names the results depend
on; and `register_wanted_fields` declares no name twice: the calls it makes to
`register_wanted_field`, recorded one entry per call, are 21 calls whose
arguments are pairwise distinct, for every callee the function is exactly that
sequence of calls, and no other sequence of calls gives the function. -/
theorem wanted_field_lookups_declared :
    (∀ wanted name, name ∈ wanted_field_lookups → name ∈ register_wanted_fields wanted) ∧
    (∀ wanted values name, name ∈ wanted_field_lookups →
      wanted_field_get_str { wanted := register_wanted_fields wanted, values := values } name
        = (match values name with
          | some (field_value.str s) => some s
          | _ => none) ∧
      wanted_field_get_int { wanted := register_wanted_fields wanted, values := values } name
        = (match values name with
          | some (field_value.int i) => some i
          | _ => none)) ∧
    (∀ fc fc2 pinfo, agree_on wanted_field_lookups fc fc2 →
      dissect_sched_process_exec fc pinfo = dissect_sched_process_exec fc2 pinfo ∧
      dissect_net_packet_http_request fc pinfo = dissect_net_packet_http_request fc2 pinfo ∧
      dissect_net_packet_http fc pinfo = dissect_net_packet_http fc2 pinfo ∧
      (∀ verb, dissect_security_socket_bind_connect fc pinfo verb
        = dissect_security_socket_bind_connect fc2 pinfo verb) ∧
      dissect_dynamic_code_loading fc pinfo = dissect_dynamic_code_loading fc2 pinfo ∧
      dissect_fileless_execution fc pinfo = dissect_fileless_execution fc2 pinfo ∧
      dissect_stdio_over_socket fc pinfo = dissect_stdio_over_socket fc2 pinfo ∧
      postdissect_event event_postdissectors fc pinfo
        = postdissect_event event_postdissectors fc2 pinfo) ∧
    register_wanted_fields_calls.length = 21 ∧
    register_wanted_fields_calls.Nodup ∧
    (∀ (σ : Type) (declare : σ → String → σ) (st : σ),
      register_wanted_fields_with declare st = register_wanted_fields_calls.foldl declare st) ∧
    (∀ names : List String,
      (∀ (σ : Type) (declare : σ → String → σ) (st : σ),
        register_wanted_fields_with declare st = names.foldl declare st) →
      names = register_wanted_fields_calls) ∧
    register_wanted_fields_calls = register_wanted_fields_names ∧
    (∀ wanted, register_wanted_fields wanted
      = register_wanted_fields_names.foldl register_wanted_field wanted) ∧
    register_wanted_fields_names.length = 21 ∧
    register_wanted_fields_names.Nodup ∧
    register_wanted_fields [] = register_wanted_fields_names := by
  have hmem : ∀ wanted name, name ∈ wanted_field_lookups →
      name ∈ register_wanted_fields wanted := by
    intro wanted name h
    rw [register_wanted_fields_eq_foldl]
    apply mem_foldl_register_wanted_field
    revert name
    decide
  have hlen : register_wanted_fields_calls.length = 21 := by
    rw [register_wanted_fields_calls_eq]
    rfl
  have hnodup : register_wanted_fields_calls.Nodup := by
    rw [register_wanted_fields_calls_eq]
    decide
  have hcalls : ∀ (σ : Type) (declare : σ → String → σ) (st : σ),
      register_wanted_fields_with declare st
        = register_wanted_fields_calls.foldl declare st := by
    intro σ declare st
    rw [register_wanted_fields_calls_eq]
    simp only [register_wanted_fields_with, register_wanted_fields_names, List.foldl_cons,
      List.foldl_nil]
  have honly : ∀ names : List String,
      (∀ (σ : Type) (declare : σ → String → σ) (st : σ),
        register_wanted_fields_with declare st = names.foldl declare st) →
      names = register_wanted_fields_calls := by
    intro names h
    have e := h (List String) (fun calls filter_name => calls ++ [filter_name]) []
    rw [foldl_record_calls, List.nil_append] at e
    exact e.symm
  refine ⟨hmem, ?_, ?_, hlen, hnodup, hcalls, honly, register_wanted_fields_calls_eq,
    register_wanted_fields_eq_foldl, rfl, by decide, ?_⟩
  · intro wanted values name h
    have hm := hmem wanted name h
    generalize register_wanted_fields wanted = w at hm ⊢
    simp only [wanted_field_get_str, wanted_field_get_int, hm, if_true, and_self]
  · intro fc fc2 pinfo h
    unfold agree_on wanted_field_lookups at h
    simp only [List.mem_cons, List.mem_singleton, List.not_mem_nil, or_false,
      forall_eq_or_imp, forall_eq] at h
    obtain ⟨⟨e1, -⟩, ⟨e2, -⟩, ⟨e3, -⟩, ⟨e4, -⟩, ⟨e5, -⟩, ⟨e6, -⟩, ⟨e7, -⟩, ⟨e8, -⟩, -,
      ⟨e10, -⟩, ⟨e11, -⟩, ⟨e12, -⟩, ⟨e13, -⟩, ⟨e14, -⟩, ⟨e15, -⟩, ⟨e16, -⟩, ⟨e17, -⟩,
      ⟨e18, -⟩, -, ⟨-, e20⟩, ⟨e21, -⟩, ⟨e22, -⟩, ⟨e23, -⟩⟩ := h
    have sched := dissect_sched_process_exec_reads fc fc2 pinfo e1 e2
    have legacy := dissect_net_packet_http_request_reads fc fc2 pinfo e3 e4 e5 e6
    have http := dissect_net_packet_http_reads fc fc2 pinfo e7 e8 e6 e10 e11 e12
    have sock := fun verb =>
      dissect_security_socket_bind_connect_reads fc fc2 pinfo verb e13 e14 e15 e16 e17
    have dcl := dissect_dynamic_code_loading_reads fc fc2 pinfo e18
    have fileless := dissect_fileless_execution_reads fc fc2 pinfo e1
    have stdio := dissect_stdio_over_socket_reads fc fc2 pinfo e20 e21 e22
    refine ⟨sched, legacy, http, sock, dcl, fileless, stdio, ?_⟩
    unfold postdissect_event
    rw [e23]
    cases wanted_field_get_str fc2 "tracee.eventName" with
    | none => rfl
    | some name =>
      simp only [wmem_map_lookup_event_postdissectors]
      split_ifs
      · exact sched
      · exact legacy
      · exact http
      · exact sock "Bind"
      · exact sock "Connect"
      · exact dcl
      · exact fileless
      · exact stdio
      · rfl
  · rw [register_wanted_fields_eq_foldl]
    exact foldl_register_wanted_field_nodup register_wanted_fields_names [] (by decide)

/-! ## No leak between events -/

theorem process_events_keeps (st : plugin_state)
    (run : List ((String → Option field_value) × packet_info)) :
    (process_events st run).event_postdissectors = st.event_postdissectors ∧
    (process_events st run).catalog.wanted = st.catalog.wanted := by
  induction run generalizing st with
  | nil => exact ⟨rfl, rfl⟩
  | cons ev rest ih =>
    obtain ⟨values, pinfo⟩ := ev
    have h := ih (process_event st values pinfo).1
    exact ⟨h.1, h.2⟩

/-- C15: no leak between events. Whatever events were processed before, in
whatever number, the result of processing an event B (the value returned and
the packet left, column text and writes) is the same, and is what
`postdissect_event` gives on B's own field values and B's own packet with the
registry and the declared names of the start; and a field absent in B is
answered absent to B's rule, for a string and for an integer lookup, also when
an earlier event carried it. -/
theorem process_event_no_leak (st : plugin_state)
    (run run2 : List ((String → Option field_value) × packet_info))
    (values : String → Option field_value) (pinfo : packet_info) :
    (process_event (process_events st run) values pinfo).2
      = (process_event (process_events st run2) values pinfo).2 ∧
    (process_event (process_events st run) values pinfo).2
      = postdissect_event st.event_postdissectors
          { wanted := st.catalog.wanted, values := values } pinfo ∧
    (∀ name, values name = none →
      wanted_field_get_str (process_event (process_events st run) values pinfo).1.catalog name
        = none ∧
      wanted_field_get_int (process_event (process_events st run) values pinfo).1.catalog name
        = none) := by
  have key : ∀ r : List ((String → Option field_value) × packet_info),
      (process_event (process_events st r) values pinfo).2
        = postdissect_event st.event_postdissectors
            { wanted := st.catalog.wanted, values := values } pinfo := by
    intro r
    have h := process_events_keeps st r
    simp only [process_event, begin_event, h.1, h.2]
  refine ⟨by rw [key run, key run2], key run, ?_⟩
  intro name hname
  simp only [process_event, begin_event, wanted_field_get_str, wanted_field_get_int, hname]
  constructor <;> split <;> rfl

/-- Witness for C15: after initialisation, a `fileless_execution` event without
`pathname` leaves its column "prior" untouched and sees `pathname` as absent,
both when it comes first and when it follows a `fileless_execution` event that
carried the pathname "/tmp/a". -/
theorem process_event_no_leak_witness :
    (process_event
        (process_events initial_state
          [(fun name => [("tracee.eventName", field_value.str "fileless_execution"),
              ("tracee.args.pathname", field_value.str "/tmp/a")].lookup name,
            packet_with "")])
        (fun name => [("tracee.eventName", field_value.str "fileless_execution")].lookup name)
        (packet_with "prior")).2 = (0, packet_with "prior") ∧
    wanted_field_get_str
      (process_event
        (process_events initial_state
          [(fun name => [("tracee.eventName", field_value.str "fileless_execution"),
              ("tracee.args.pathname", field_value.str "/tmp/a")].lookup name,
            packet_with "")])
        (fun name => [("tracee.eventName", field_value.str "fileless_execution")].lookup name)
        (packet_with "prior")).1.catalog "tracee.args.pathname" = none :=
  have h := process_event_no_leak initial_state
    [(fun name => [("tracee.eventName", field_value.str "fileless_execution"),
        ("tracee.args.pathname", field_value.str "/tmp/a")].lookup name,
      packet_with "")]
    []
    (fun name => [("tracee.eventName", field_value.str "fileless_execution")].lookup name)
    (packet_with "prior")
  ⟨h.1.trans (by decide), (h.2.2 "tracee.args.pathname" (by decide)).1⟩

end Tracee
